import Mathlib

set_option maxRecDepth 8192

/-!
Verification of the search query-building layer of `database/searches.go`
from the mig repository.

The Go file defines `SearchParameters`, its default constructor
`NewSearchParameters`, the query-string serializer `String()`, the
identifier-range resolver `makeIDsFromParams`, and four search operations
(`SearchCommands`, `SearchActions`, `SearchAgents`, `SearchInvestigators`)
that assemble a parameterized SQL query out of the filters that are set.

Shallow embedding conventions:
* `time.Time` values are modelled as `Int` (seconds); `time.Now()` becomes an
  explicit `now : Int` parameter.
* Go `float64` values (identifier filters, Limit, Offset) are idealized as
  exact rationals `Rat`; machine rounding is not modelled, which is
  immaterial for every statement proved here.
* Each Go `if` block that appends a WHERE clause becomes one `Step` row, in
  source order, carrying the same activation condition, the same
  `fmt.Sprintf` template (literal text and positional-parameter slots) and
  the same bound values.  `runSteps` replays the Go control flow: the Go
  `if valctr > 0 \x7b query += " AND " \x7d` separator logic is reproduced
  by `whereToks`, which interleaves the literal " AND " between consecutive
  clauses (every clause binds at least one value, so `valctr > 0` holds
  exactly when a previous clause exists).
* Database execution, row scanning and hydration are outside the scope of
  the claims settled here; a search operation is modelled up to the pair
  (query text, bound values) it would hand to the store, and a parse
  failure short-circuits it exactly as in the source.
-/

namespace Mig

/-- One hour, in the seconds-based time model (Go `time.Hour`). -/
def hourSec : Int := 3600

/-- Go constant `defaultSearchPeriod time.Duration = 39600 * time.Hour` (10 years). -/
def defaultSearchPeriod : Int := 39600 * hourSec

/-- Go constant `MAXFLOAT64 float64 = 9007199254740991`, i.e. 2^53 - 1. -/
def MAXFLOAT64 : Rat := 9007199254740991

/-- Two-digit zero padding, as Go time formatting produces for months, days,
hours, minutes and seconds. -/
def pad2 (n : Nat) : String :=
  if n < 10 then "0" ++ toString n else toString n

/-- Four-digit zero padding for the year. -/
def padNat4 (n : Nat) : String :=
  if n < 10 then "000" ++ toString n
  else if n < 100 then "00" ++ toString n
  else if n < 1000 then "0" ++ toString n
  else toString n

/-- Year component with sign. -/
def pad4 (y : Int) : String :=
  if y < 0 then "-" ++ padNat4 (-y).toNat else padNat4 y.toNat

/-- Model of Go `t.Format(time.RFC3339)` for a UTC instant given as seconds
since the Unix epoch, producing "YYYY-MM-DDThh:mm:ssZ".  Date conversion uses
the standard civil-from-days algorithm over the proleptic Gregorian calendar. -/
def rfc3339 (t : Int) : String :=
  let days := Int.fdiv t 86400
  let secs := (t - days * 86400).toNat
  let z := days + 719468
  let era := Int.fdiv z 146097
  let doe := (z - era * 146097).toNat
  let yoe := (doe - doe / 1460 + doe / 36524 - doe / 146096) / 365
  let doy := doe - (365 * yoe + yoe / 4 - yoe / 100)
  let mp := (5 * doy + 2) / 153
  let d := doy - (153 * mp + 2) / 5 + 1
  let m := if mp < 10 then mp + 3 else mp - 9
  let y : Int := (yoe : Int) + era * 400 + (if m ≤ 2 then 1 else 0)
  pad4 y ++ "-" ++ pad2 m ++ "-" ++ pad2 d ++ "T" ++
    pad2 (secs / 3600) ++ ":" ++ pad2 (secs % 3600 / 60) ++ ":" ++ pad2 (secs % 60) ++ "Z"

/-- Floor of a rational as an integer (`den` is always positive). -/
def ratFloor (x : Rat) : Int := Int.fdiv x.num (x.den : Int)

/-- Round half to even, the rounding Go `fmt` uses for `%.0f`.  With
`f = ⌊x⌋`, the fractional part is `(num - f*den)/den`; comparing it with 1/2
is done on `2*(num - f*den)` against `den` to stay in integer arithmetic. -/
def roundHalfEven (x : Rat) : Int :=
  let f := ratFloor x
  let r2 := 2 * (x.num - f * (x.den : Int))
  if r2 < (x.den : Int) then f
  else if (x.den : Int) < r2 then f + 1
  else if f % 2 = 0 then f else f + 1

/-- Model of Go `fmt.Sprintf("%.0f", x)`: the value rounded to an integer,
rendered without a fractional part. -/
def fmtF0 (x : Rat) : String := toString (roundHalfEven x)

/-- Model of the Go conversion `uint64(x)` for a non-negative `float64`
(truncation toward zero; negative inputs are clamped to zero, a case the
source never exercises). -/
def goUint64 (x : Rat) : Nat := (ratFloor x).toNat

/-- Value bound to a positional SQL parameter by the query builders. -/
inductive Val where
  | time (t : Int)
  | num (x : Rat)
  | str (s : String)
  | int (n : Nat)
  | bool (b : Bool)
deriving DecidableEq

/-- Go struct `SearchParameters` (database/searches.go).  `Report` and
`Target` exist on the struct but are consumed by other layers. -/
structure SearchParameters where
  ActionID : String
  ActionName : String
  After : Int
  AgentID : String
  AgentName : String
  Before : Int
  CommandID : String
  FoundAnything : Bool
  InvestigatorID : String
  InvestigatorName : String
  Limit : Rat
  Offset : Rat
  Report : String
  Status : String
  Target : String
  ThreatFamily : String
  Typ : String
deriving DecidableEq

/-- Go `NewSearchParameters()`: every field at its sentinel/default.  Fields
the Go function does not assign keep their zero value ("" / false). -/
def NewSearchParameters (now : Int) : SearchParameters where
  ActionID := "∞"
  ActionName := "%"
  After := now - defaultSearchPeriod
  AgentID := "∞"
  AgentName := "%"
  Before := now + defaultSearchPeriod
  CommandID := "∞"
  FoundAnything := false
  InvestigatorID := "∞"
  InvestigatorName := "%"
  Limit := 100
  Offset := 0
  Report := ""
  Status := "%"
  Target := ""
  ThreatFamily := "%"
  Typ := "action"

/-- Go `func (p SearchParameters) String() string`: query-string
serialization by successive concatenation, one `if` per optional key, in
source order. -/
def SearchParameters.string (p : SearchParameters) : String :=
  let q := "type=" ++ p.Typ ++ "&after=" ++ rfc3339 p.After ++ "&before=" ++ rfc3339 p.Before
  let q := if p.AgentName ≠ "%" then q ++ "&agentname=" ++ p.AgentName else q
  let q := if p.AgentID ≠ "∞" then q ++ "&agentid=" ++ p.AgentID else q
  let q := if p.ActionName ≠ "%" then q ++ "&actionname=" ++ p.ActionName else q
  let q := if p.ActionID ≠ "∞" then q ++ "&actionid=" ++ p.ActionID else q
  let q := if p.CommandID ≠ "∞" then q ++ "&commandid=" ++ p.CommandID else q
  let q := if p.InvestigatorID ≠ "∞" then q ++ "&investigatorid=" ++ p.InvestigatorID else q
  let q := if p.InvestigatorName ≠ "%" then q ++ "&investigatorname=" ++ p.InvestigatorName else q
  let q := if p.ThreatFamily ≠ "%" then q ++ "&threatfamily=" ++ p.ThreatFamily else q
  let q := if p.Status ≠ "%" then q ++ "&status=" ++ p.Status else q
  let q := q ++ "&limit=" ++ fmtF0 p.Limit
  let q := if p.Offset ≠ 0 then q ++ "&offset=" ++ fmtF0 p.Offset else q
  q

/-- Key/text segments of the query string, in emission order: the always
present type/after/before block, one optional segment per non-default field,
the always present limit, the optional offset. -/
def stringSegments (p : SearchParameters) : List (String × String) :=
  [("type", "type=" ++ p.Typ),
   ("after", "&after=" ++ rfc3339 p.After),
   ("before", "&before=" ++ rfc3339 p.Before)]
  ++ (if p.AgentName ≠ "%" then [("agentname", "&agentname=" ++ p.AgentName)] else [])
  ++ (if p.AgentID ≠ "∞" then [("agentid", "&agentid=" ++ p.AgentID)] else [])
  ++ (if p.ActionName ≠ "%" then [("actionname", "&actionname=" ++ p.ActionName)] else [])
  ++ (if p.ActionID ≠ "∞" then [("actionid", "&actionid=" ++ p.ActionID)] else [])
  ++ (if p.CommandID ≠ "∞" then [("commandid", "&commandid=" ++ p.CommandID)] else [])
  ++ (if p.InvestigatorID ≠ "∞" then [("investigatorid", "&investigatorid=" ++ p.InvestigatorID)] else [])
  ++ (if p.InvestigatorName ≠ "%" then [("investigatorname", "&investigatorname=" ++ p.InvestigatorName)] else [])
  ++ (if p.ThreatFamily ≠ "%" then [("threatfamily", "&threatfamily=" ++ p.ThreatFamily)] else [])
  ++ (if p.Status ≠ "%" then [("status", "&status=" ++ p.Status)] else [])
  ++ [("limit", "&limit=" ++ fmtF0 p.Limit)]
  ++ (if p.Offset ≠ 0 then [("offset", "&offset=" ++ fmtF0 p.Offset)] else [])

/-- Concatenation of the text parts of a segment list. -/
def segJoin : List (String × String) → String
  | [] => ""
  | kv :: rest => kv.2 ++ segJoin rest

/-- Numeric value of a digit run. -/
def digitsToNat (l : List Char) : Nat :=
  l.foldl (fun a c => a * 10 + (c.toNat - 48)) 0

/-- Mantissa of a decimal float: digits with an optional fractional part; at
least one digit must be present.  Returns the digit string's value, the
number of fractional digits, and the unconsumed input. -/
def parseMantissa (cs : List Char) : Option (Nat × Nat × List Char) :=
  let ip := cs.takeWhile Char.isDigit
  let r1 := cs.dropWhile Char.isDigit
  match r1 with
  | '.' :: r2 =>
    let fp := r2.takeWhile Char.isDigit
    let r3 := r2.dropWhile Char.isDigit
    if ip.isEmpty && fp.isEmpty then none
    else some (digitsToNat (ip ++ fp), fp.length, r3)
  | _ => if ip.isEmpty then none else some (digitsToNat ip, 0, r1)

/-- Exact value of a parsed decimal: sign, mantissa digits `m` with
`fracLen` of them fractional, decimal exponent `ex`; that is,
±m·10^(ex−fracLen), built with integer arithmetic only. -/
def decValue (neg : Bool) (m : Nat) (fracLen : Nat) (ex : Int) : Rat :=
  let sc : Int := ex - (fracLen : Int)
  let n : Int := if neg then -(m : Int) else (m : Int)
  if 0 ≤ sc then mkRat (n * (((10 : Nat) ^ sc.toNat : Nat) : Int)) 1
  else mkRat n ((10 : Nat) ^ (-sc).toNat)

/-- Model of Go `strconv.ParseFloat(s, 64)` (standard library, outside this
repository) restricted to the decimal syntax the searches rely on: optional
sign, decimal mantissa, optional decimal exponent.  Values are idealized as
exact rationals; hexadecimal floats, infinity/NaN spellings, digit
underscores and overflow-to-infinity are not modelled. -/
def parseGoFloat (s : String) : Option Rat :=
  let cs := s.data
  let sgn : Bool × List Char :=
    match cs with
    | '+' :: t => (false, t)
    | '-' :: t => (true, t)
    | t => (false, t)
  match parseMantissa sgn.2 with
  | none => none
  | some (m, fracLen, rest) =>
    match rest with
    | [] => some (decValue sgn.1 m fracLen 0)
    | e :: t =>
      if e = 'e' ∨ e = 'E' then
        let esgn : Bool × List Char :=
          match t with
          | '+' :: u => (false, u)
          | '-' :: u => (true, u)
          | u => (false, u)
        let ds := esgn.2.takeWhile Char.isDigit
        let t2 := esgn.2.dropWhile Char.isDigit
        if ds.isEmpty then none
        else if t2.isEmpty then
          some (decValue sgn.1 m fracLen
            (if esgn.1 then -(digitsToNat ds : Int) else (digitsToNat ds : Int)))
        else none
      else none

/-- Failure of the range resolver: the equivalent of the non-nil error
`strconv.ParseFloat` returns for a non-numeric input, carrying that input. -/
inductive ParseFloatError where
  | syntaxErr (input : String)
deriving DecidableEq

/-- One identifier filter resolved to a closed range: the body of each of the
four identical blocks of `makeIDsFromParams`.  The sentinel "∞" keeps the
default range [0, MAXFLOAT64]; otherwise the filter is parsed and the range
collapses to a point. -/
def resolveID (s : String) : Except ParseFloatError (Rat × Rat) :=
  if s = "∞" then Except.ok (0, MAXFLOAT64)
  else
    match parseGoFloat s with
    | some v => Except.ok (v, v)
    | none => Except.error (ParseFloatError.syntaxErr s)

/-- Go struct `IDs`: four (min, max) identifier ranges. -/
structure IDs where
  minActionID : Rat
  maxActionID : Rat
  minCommandID : Rat
  maxCommandID : Rat
  minAgentID : Rat
  maxAgentID : Rat
  minInvID : Rat
  maxInvID : Rat
deriving DecidableEq

/-- Go `makeIDsFromParams`: resolves the four identifier filters in source
order (action, command, agent, investigator), returning the first parse
failure if any. -/
def makeIDsFromParams (p : SearchParameters) : Except ParseFloatError IDs :=
  match resolveID p.ActionID with
  | Except.error e => Except.error e
  | Except.ok a =>
    match resolveID p.CommandID with
    | Except.error e => Except.error e
    | Except.ok c =>
      match resolveID p.AgentID with
      | Except.error e => Except.error e
      | Except.ok g =>
        match resolveID p.InvestigatorID with
        | Except.error e => Except.error e
        | Except.ok i =>
          Except.ok ⟨a.1, a.2, c.1, c.2, g.1, g.2, i.1, i.2⟩

/-- Which filter a WHERE clause was emitted for. -/
inductive Field where
  | before
  | after
  | commandID
  | status
  | actionID
  | actionName
  | investigatorID
  | investigatorName
  | agentID
  | agentName
  | foundAnything
  | threatFamily
deriving DecidableEq

/-- Query-text token: literal text or a positional parameter placeholder
(rendered as a dollar sign followed by the slot number). -/
inductive Tok where
  | lit (s : String)
  | param (n : Nat)
deriving DecidableEq

/-- Render a token list to SQL text. -/
def renderToks : List Tok → String
  | [] => ""
  | Tok.lit s :: rest => s ++ renderToks rest
  | Tok.param n :: rest => "$" ++ toString n ++ renderToks rest

/-- Positional parameter slots mentioned by a token list, in textual order. -/
def paramsOf : List Tok → List Nat
  | [] => []
  | Tok.lit _ :: rest => paramsOf rest
  | Tok.param n :: rest => n :: paramsOf rest

/-- One WHERE clause as the builder emits it: the filter it came from, the
value of `valctr` just before it was appended, its rendered template and the
values it binds. -/
structure Clause where
  field : Field
  base : Nat
  toks : List Tok
  vals : List Val
deriving DecidableEq

/-- WHERE text of a clause list: clause templates joined by the literal
" AND ", exactly reproducing the Go `if valctr > 0 \x7b ... \x7d` separator
logic (a clause always binds at least one value). -/
def whereToks : List Clause → List Tok
  | [] => []
  | [c] => c.toks
  | c :: c2 :: rest => c.toks ++ (Tok.lit " AND " :: whereToks (c2 :: rest))

/-- The conditional join fragments the three flag-driven searches can emit,
one constructor per distinct Go string. -/
inductive JoinClause where
  | commandsOnAction
  | agentsOnCommands
  | sigInvOnActions
  | commandsOnAgents
  | actionsOnCommands
  | sigActionsOnInv
deriving DecidableEq

/-- Exact Go text of each join fragment. -/
def JoinClause.render : JoinClause → String
  | JoinClause.commandsOnAction => "INNER JOIN commands ON ( commands.actionid = actions.id) "
  | JoinClause.agentsOnCommands => " INNER JOIN agents ON ( commands.agentid = agents.id ) "
  | JoinClause.sigInvOnActions =>
      " INNER JOIN signatures ON ( actions.id = signatures.actionid )\n\t\t\tINNER JOIN investigators ON ( signatures.investigatorid = investigators.id ) "
  | JoinClause.commandsOnAgents => "INNER JOIN commands ON ( commands.agentid = agents.id) "
  | JoinClause.actionsOnCommands => " INNER JOIN actions ON ( commands.actionid = actions.id ) "
  | JoinClause.sigActionsOnInv =>
      " INNER JOIN signatures ON ( signatures.investigatorid = investigators.id ) \n\t\t\tINNER JOIN actions ON ( actions.id = signatures.actionid ) "

/-- Tables a join fragment introduces. -/
def JoinClause.tables : JoinClause → List String
  | JoinClause.commandsOnAction => ["commands"]
  | JoinClause.agentsOnCommands => ["agents"]
  | JoinClause.sigInvOnActions => ["signatures", "investigators"]
  | JoinClause.commandsOnAgents => ["commands"]
  | JoinClause.actionsOnCommands => ["actions"]
  | JoinClause.sigActionsOnInv => ["signatures", "actions"]

/-- Concatenated text of a join fragment list. -/
def renderJoins : List JoinClause → String
  | [] => ""
  | j :: rest => j.render ++ renderJoins rest

/-- One Go `if` block of a search builder: activation condition, originating
filter, clause template as a function of the current `valctr`, bound values,
and the join flags the block sets. -/
structure Step where
  active : Bool
  field : Field
  toks : Nat → List Tok
  vals : List Val
  setAction : Bool := false
  setAgent : Bool := false
  setCommand : Bool := false
  setInvestigator : Bool := false

/-- Mutable state threaded through a search builder: emitted clauses, bound
values, the positional counter and the four join flags. -/
structure BuildState where
  clauses : List Clause
  vals : List Val
  valctr : Nat
  joinAction : Bool
  joinAgent : Bool
  joinCommand : Bool
  joinInvestigator : Bool

/-- State at the top of each search builder. -/
def initState : BuildState := ⟨[], [], 0, false, false, false, false⟩

/-- Execute one `if` block. -/
def applyStep (s : BuildState) (st : Step) : BuildState :=
  if st.active then
    { clauses := s.clauses ++ [⟨st.field, s.valctr, st.toks s.valctr, st.vals⟩]
      vals := s.vals ++ st.vals
      valctr := s.valctr + st.vals.length
      joinAction := s.joinAction || st.setAction
      joinAgent := s.joinAgent || st.setAgent
      joinCommand := s.joinCommand || st.setCommand
      joinInvestigator := s.joinInvestigator || st.setInvestigator }
  else s

/-- Execute the blocks of a search builder in order. -/
def runSteps (s : BuildState) : List Step → BuildState
  | [] => s
  | st :: rest => runSteps (applyStep s st) rest

/-- Clauses a step list produces starting from counter `n` (specification
function used by the characterization lemmas). -/
def buildClauses (n : Nat) : List Step → List Clause
  | [] => []
  | st :: rest =>
    if st.active then
      ⟨st.field, n, st.toks n, st.vals⟩ :: buildClauses (n + st.vals.length) rest
    else buildClauses n rest

/-- Total number of values the active steps bind. -/
def arsum : List Step → Nat
  | [] => 0
  | st :: rest => (if st.active then st.vals.length else 0) + arsum rest

/-- Values the active steps bind, in order. -/
def valsJoin : List Step → List Val
  | [] => []
  | st :: rest => (if st.active then st.vals else []) ++ valsJoin rest

/-- Clause bases are consecutive starting at `n`: each clause's base is the
sum of the arities of the clauses before it. -/
def basesFromB : Nat → List Clause → Bool
  | _, [] => true
  | n, c :: rest => (c.base == n) && basesFromB (n + c.vals.length) rest

/-- Modelled from the spec: the domain "success" command status
(`mig.StatusSuccess` lives in the mig package, which is not among the
sources under verification; only the literal identity of the string is
unavailable, not its role). -/
def statusSuccess : String := "success"

/-- Column list of `SearchActions`. -/
def actionsColumns : String :=
  "actions.id, actions.name, actions.target,  actions.description, actions.threat, actions.operations,\n\t\tactions.validfrom, actions.expireafter, actions.starttime, actions.finishtime, actions.lastupdatetime,\n\t\tactions.status, actions.pgpsignatures, actions.syntaxversion "

/-- Column list of `SearchAgents`. -/
def agentsColumns : String :=
  "agents.id, agents.name, agents.queueloc, agents.mode,\n\t\tagents.version, agents.pid, agents.starttime, agents.destructiontime,\n\t\tagents.heartbeattime, agents.status"

/-- Column list of `SearchInvestigators`. -/
def investigatorsColumns : String :=
  "investigators.id, investigators.name, investigators.pgpfingerprint,\n\t\tinvestigators.status, investigators.createdat, investigators.lastmodified"

/-- Fixed head of the `SearchCommands` query: projection, the four
unconditional INNER JOINs, and the WHERE keyword, exactly as the Go literal. -/
def commandsSelectFrom : String :=
  "SELECT commands.id, commands.status, commands.results, commands.starttime, commands.finishtime,\n\t\t\tactions.id, actions.name, actions.target, actions.description, actions.threat,\n\t\t\tactions.operations, actions.validfrom, actions.expireafter, actions.pgpsignatures,\n\t\t\tactions.syntaxversion, agents.id, agents.name, agents.version, agents.tags, agents.environment\n\t\tFROM\tcommands\n\t\t\tINNER JOIN actions ON ( commands.actionid = actions.id)\n\t\t\tINNER JOIN signatures ON ( actions.id = signatures.actionid )\n\t\t\tINNER JOIN investigators ON ( signatures.investigatorid = investigators.id )\n\t\t\tINNER JOIN agents ON ( commands.agentid = agents.id )\n\t\tWHERE "

/-- Template of the found-anything clause of `SearchCommands` (source
verbatim; the braces and quotes of the SQL text are escaped). -/
def faTemplate (n : Nat) : List Tok :=
  [Tok.lit "commands.status = ", Tok.param (n + 1),
   Tok.lit "\n\t\t\tAND commands.id IN (\tSELECT commands.id FROM commands, actions, json_array_elements(commands.results) as r\n\t\t\t\t\t\tWHERE commands.actionid=actions.id\n\t\t\t\t\t\tAND actions.id >= ",
   Tok.param (n + 2), Tok.lit " AND actions.id <= ", Tok.param (n + 3),
   Tok.lit "\n\t\t\t\t\t\tAND r#>>\x27\x7bfoundanything\x7d\x27 = ", Tok.param (n + 4), Tok.lit ") "]

/-- The `if` blocks of `SearchCommands`, in source order. -/
def commandsSteps (p : SearchParameters) (ids : IDs) (now : Int) (doFoundAnything : Bool) : List Step :=
  [ { active := decide (p.Before < now + (defaultSearchPeriod - hourSec)), field := Field.before,
      toks := fun n => [Tok.lit "commands.starttime <= ", Tok.param (n + 1), Tok.lit " "],
      vals := [Val.time p.Before] },
    { active := decide (now - (defaultSearchPeriod - hourSec) < p.After), field := Field.after,
      toks := fun n => [Tok.lit "commands.starttime >= ", Tok.param (n + 1), Tok.lit " "],
      vals := [Val.time p.After] },
    { active := p.CommandID != "∞", field := Field.commandID,
      toks := fun n => [Tok.lit "commands.id >= ", Tok.param (n + 1), Tok.lit " AND commands.id <= ", Tok.param (n + 2)],
      vals := [Val.num ids.minCommandID, Val.num ids.maxCommandID] },
    { active := p.Status != "%", field := Field.status,
      toks := fun n => [Tok.lit "commands.status ILIKE ", Tok.param (n + 1)],
      vals := [Val.str p.Status] },
    { active := p.ActionID != "∞", field := Field.actionID,
      toks := fun n => [Tok.lit "actions.id >= ", Tok.param (n + 1), Tok.lit " AND actions.id <= ", Tok.param (n + 2)],
      vals := [Val.num ids.minActionID, Val.num ids.maxActionID] },
    { active := p.ActionName != "%", field := Field.actionName,
      toks := fun n => [Tok.lit "actions.name ILIKE ", Tok.param (n + 1)],
      vals := [Val.str p.ActionName] },
    { active := p.InvestigatorID != "∞", field := Field.investigatorID,
      toks := fun n => [Tok.lit "investigators.id >= ", Tok.param (n + 1), Tok.lit " AND investigators.id <= ", Tok.param (n + 2)],
      vals := [Val.num ids.minInvID, Val.num ids.maxInvID] },
    { active := p.InvestigatorName != "%", field := Field.investigatorName,
      toks := fun n => [Tok.lit "investigators.name ILIKE ", Tok.param (n + 1)],
      vals := [Val.str p.InvestigatorName] },
    { active := p.AgentID != "∞", field := Field.agentID,
      toks := fun n => [Tok.lit "agents.id >= ", Tok.param (n + 1), Tok.lit " AND agents.id <= ", Tok.param (n + 2)],
      vals := [Val.num ids.minAgentID, Val.num ids.maxAgentID] },
    { active := p.AgentName != "%", field := Field.agentName,
      toks := fun n => [Tok.lit "agents.name ILIKE ", Tok.param (n + 1)],
      vals := [Val.str p.AgentName] },
    { active := doFoundAnything, field := Field.foundAnything,
      toks := faTemplate,
      vals := [Val.str statusSuccess, Val.num ids.minActionID, Val.num ids.maxActionID, Val.bool p.FoundAnything] },
    { active := p.ThreatFamily != "%", field := Field.threatFamily,
      toks := fun n => [Tok.lit "actions.threat#>>\x27\x7bfamily\x7d\x27 ILIKE ", Tok.param (n + 1), Tok.lit " "],
      vals := [Val.str p.ThreatFamily] } ]

/-- The `if` blocks of `SearchActions`, in source order.  The status clause
reproduces the source verbatim, including its singular `action.status`
qualifier. -/
def actionsSteps (p : SearchParameters) (ids : IDs) (now : Int) : List Step :=
  [ { active := decide (p.Before < now + (defaultSearchPeriod - hourSec)), field := Field.before,
      toks := fun n => [Tok.lit "actions.expireafter <= ", Tok.param (n + 1), Tok.lit " "],
      vals := [Val.time p.Before] },
    { active := decide (now - (defaultSearchPeriod - hourSec) < p.After), field := Field.after,
      toks := fun n => [Tok.lit "actions.validfrom >= ", Tok.param (n + 1), Tok.lit " "],
      vals := [Val.time p.After] },
    { active := p.Status != "%", field := Field.status,
      toks := fun n => [Tok.lit "action.status ILIKE ", Tok.param (n + 1)],
      vals := [Val.str p.Status] },
    { active := p.ActionID != "∞", field := Field.actionID,
      toks := fun n => [Tok.lit "actions.id >= ", Tok.param (n + 1), Tok.lit " AND actions.id <= ", Tok.param (n + 2)],
      vals := [Val.num ids.minActionID, Val.num ids.maxActionID] },
    { active := p.ActionName != "%", field := Field.actionName,
      toks := fun n => [Tok.lit "actions.name ILIKE ", Tok.param (n + 1)],
      vals := [Val.str p.ActionName] },
    { active := p.InvestigatorID != "∞", field := Field.investigatorID,
      toks := fun n => [Tok.lit "investigators.id >= ", Tok.param (n + 1), Tok.lit " AND investigators.id <= ", Tok.param (n + 2)],
      vals := [Val.num ids.minInvID, Val.num ids.maxInvID],
      setInvestigator := true },
    { active := p.InvestigatorName != "%", field := Field.investigatorName,
      toks := fun n => [Tok.lit "investigators.name ILIKE ", Tok.param (n + 1)],
      vals := [Val.str p.InvestigatorName],
      setInvestigator := true },
    { active := p.AgentID != "∞", field := Field.agentID,
      toks := fun n => [Tok.lit "agents.id >= ", Tok.param (n + 1), Tok.lit " AND agents.id <= ", Tok.param (n + 2)],
      vals := [Val.num ids.minAgentID, Val.num ids.maxAgentID],
      setAgent := true, setCommand := true },
    { active := p.AgentName != "%", field := Field.agentName,
      toks := fun n => [Tok.lit "agents.name ILIKE ", Tok.param (n + 1)],
      vals := [Val.str p.AgentName],
      setAgent := true, setCommand := true },
    { active := p.CommandID != "∞", field := Field.commandID,
      toks := fun n => [Tok.lit "commands.id >= ", Tok.param (n + 1), Tok.lit " AND commands.id <= ", Tok.param (n + 2)],
      vals := [Val.num ids.minCommandID, Val.num ids.maxCommandID],
      setCommand := true },
    { active := p.ThreatFamily != "%", field := Field.threatFamily,
      toks := fun n => [Tok.lit "actions.threat#>>\x27\x7bfamily\x7d\x27 ILIKE ", Tok.param (n + 1), Tok.lit " "],
      vals := [Val.str p.ThreatFamily] } ]

/-- The `if` blocks of `SearchAgents`, in source order. -/
def agentsSteps (p : SearchParameters) (ids : IDs) (now : Int) : List Step :=
  [ { active := decide (p.Before < now + (defaultSearchPeriod - hourSec)), field := Field.before,
      toks := fun n => [Tok.lit "agents.heartbeattime <= ", Tok.param (n + 1), Tok.lit " "],
      vals := [Val.time p.Before] },
    { active := decide (now - (defaultSearchPeriod - hourSec) < p.After), field := Field.after,
      toks := fun n => [Tok.lit "agents.heartbeattime >= ", Tok.param (n + 1), Tok.lit " "],
      vals := [Val.time p.After] },
    { active := p.AgentID != "∞", field := Field.agentID,
      toks := fun n => [Tok.lit "agents.id >= ", Tok.param (n + 1), Tok.lit " AND agents.id <= ", Tok.param (n + 2)],
      vals := [Val.num ids.minAgentID, Val.num ids.maxAgentID] },
    { active := p.AgentName != "%", field := Field.agentName,
      toks := fun n => [Tok.lit "agents.name ILIKE ", Tok.param (n + 1)],
      vals := [Val.str p.AgentName] },
    { active := p.Status != "%", field := Field.status,
      toks := fun n => [Tok.lit "agents.status ILIKE ", Tok.param (n + 1)],
      vals := [Val.str p.Status] },
    { active := p.ActionID != "∞", field := Field.actionID,
      toks := fun n => [Tok.lit "actions.id >= ", Tok.param (n + 1), Tok.lit " AND actions.id <= ", Tok.param (n + 2)],
      vals := [Val.num ids.minActionID, Val.num ids.maxActionID],
      setAction := true, setCommand := true },
    { active := p.ActionName != "%", field := Field.actionName,
      toks := fun n => [Tok.lit "actions.name ILIKE ", Tok.param (n + 1)],
      vals := [Val.str p.ActionName],
      setAction := true, setCommand := true },
    { active := p.ThreatFamily != "%", field := Field.threatFamily,
      toks := fun n => [Tok.lit "actions.threat#>>\x27\x7bfamily\x7d\x27 ILIKE ", Tok.param (n + 1), Tok.lit " "],
      vals := [Val.str p.ThreatFamily],
      setAction := true, setCommand := true },
    { active := p.InvestigatorID != "∞", field := Field.investigatorID,
      toks := fun n => [Tok.lit "investigators.id >= ", Tok.param (n + 1), Tok.lit " AND investigators.id <= ", Tok.param (n + 2)],
      vals := [Val.num ids.minInvID, Val.num ids.maxInvID],
      setAction := true, setCommand := true, setInvestigator := true },
    { active := p.InvestigatorName != "%", field := Field.investigatorName,
      toks := fun n => [Tok.lit "investigators.name ILIKE ", Tok.param (n + 1)],
      vals := [Val.str p.InvestigatorName],
      setAction := true, setCommand := true, setInvestigator := true },
    { active := p.CommandID != "∞", field := Field.commandID,
      toks := fun n => [Tok.lit "commands.id >= ", Tok.param (n + 1), Tok.lit " AND commands.id <= ", Tok.param (n + 2)],
      vals := [Val.num ids.minCommandID, Val.num ids.maxCommandID],
      setCommand := true } ]

/-- The `if` blocks of `SearchInvestigators`, in source order. -/
def investigatorsSteps (p : SearchParameters) (ids : IDs) (now : Int) : List Step :=
  [ { active := decide (p.Before < now + (defaultSearchPeriod - hourSec)), field := Field.before,
      toks := fun n => [Tok.lit "investigators.lastmodified <= ", Tok.param (n + 1), Tok.lit " "],
      vals := [Val.time p.Before] },
    { active := decide (now - (defaultSearchPeriod - hourSec) < p.After), field := Field.after,
      toks := fun n => [Tok.lit "investigators.lastmodified >= ", Tok.param (n + 1), Tok.lit " "],
      vals := [Val.time p.After] },
    { active := p.InvestigatorID != "∞", field := Field.investigatorID,
      toks := fun n => [Tok.lit "investigators.id >= ", Tok.param (n + 1), Tok.lit " AND investigators.id <= ", Tok.param (n + 2)],
      vals := [Val.num ids.minInvID, Val.num ids.maxInvID] },
    { active := p.InvestigatorName != "%", field := Field.investigatorName,
      toks := fun n => [Tok.lit "investigators.name ILIKE ", Tok.param (n + 1)],
      vals := [Val.str p.InvestigatorName] },
    { active := p.Status != "%", field := Field.status,
      toks := fun n => [Tok.lit "investigators.status ILIKE ", Tok.param (n + 1)],
      vals := [Val.str p.Status] },
    { active := p.ActionID != "∞", field := Field.actionID,
      toks := fun n => [Tok.lit "actions.id >= ", Tok.param (n + 1), Tok.lit " AND actions.id <= ", Tok.param (n + 2)],
      vals := [Val.num ids.minActionID, Val.num ids.maxActionID],
      setAction := true },
    { active := p.ActionName != "%", field := Field.actionName,
      toks := fun n => [Tok.lit "actions.name ILIKE ", Tok.param (n + 1)],
      vals := [Val.str p.ActionName],
      setAction := true },
    { active := p.ThreatFamily != "%", field := Field.threatFamily,
      toks := fun n => [Tok.lit "actions.threat#>>\x27\x7bfamily\x7d\x27 ILIKE ", Tok.param (n + 1), Tok.lit " "],
      vals := [Val.str p.ThreatFamily],
      setAction := true },
    { active := p.CommandID != "∞", field := Field.commandID,
      toks := fun n => [Tok.lit "commands.id >= ", Tok.param (n + 1), Tok.lit " AND commands.id <= ", Tok.param (n + 2)],
      vals := [Val.num ids.minCommandID, Val.num ids.maxCommandID],
      setCommand := true, setAction := true },
    { active := p.AgentID != "∞", field := Field.agentID,
      toks := fun n => [Tok.lit "agents.id >= ", Tok.param (n + 1), Tok.lit " AND agents.id <= ", Tok.param (n + 2)],
      vals := [Val.num ids.minAgentID, Val.num ids.maxAgentID],
      setCommand := true, setAction := true, setAgent := true },
    { active := p.AgentName != "%", field := Field.agentName,
      toks := fun n => [Tok.lit "agents.name ILIKE ", Tok.param (n + 1)],
      vals := [Val.str p.AgentName],
      setCommand := true, setAction := true, setAgent := true } ]

/-- Join assembly of `SearchActions` (source order: commands, agents,
signatures+investigators). -/
def actionsJoinsOf (s : BuildState) : List JoinClause :=
  (if s.joinCommand then [JoinClause.commandsOnAction] else [])
  ++ (if s.joinAgent then [JoinClause.agentsOnCommands] else [])
  ++ (if s.joinInvestigator then [JoinClause.sigInvOnActions] else [])

/-- Join assembly of `SearchAgents` (source order: commands, actions,
signatures+investigators). -/
def agentsJoinsOf (s : BuildState) : List JoinClause :=
  (if s.joinCommand then [JoinClause.commandsOnAgents] else [])
  ++ (if s.joinAction then [JoinClause.actionsOnCommands] else [])
  ++ (if s.joinInvestigator then [JoinClause.sigInvOnActions] else [])

/-- Join assembly of `SearchInvestigators` (source order:
signatures+actions, commands, agents). -/
def investigatorsJoinsOf (s : BuildState) : List JoinClause :=
  (if s.joinAction then [JoinClause.sigActionsOnInv] else [])
  ++ (if s.joinCommand then [JoinClause.commandsOnAction] else [])
  ++ (if s.joinAgent then [JoinClause.agentsOnCommands] else [])

/-- Assembled query: full token text plus the structured parts the theorems
inspect. -/
structure BuiltQuery where
  toks : List Tok
  clauses : List Clause
  joins : List JoinClause
  valctrFinal : Nat
  vals : List Val
deriving DecidableEq

/-- Rendered SQL text of a built query. -/
def BuiltQuery.text (q : BuiltQuery) : String := renderToks q.toks

/-- Query assembled by `SearchCommands` once the ranges are resolved. -/
def mkCommandsQuery (p : SearchParameters) (ids : IDs) (now : Int) (doFoundAnything : Bool) : BuiltQuery :=
  let s := runSteps initState (commandsSteps p ids now doFoundAnything)
  { toks := (Tok.lit commandsSelectFrom :: whereToks s.clauses)
      ++ [Tok.lit " GROUP BY commands.id, actions.id, agents.id\n\t\tORDER BY commands.starttime DESC LIMIT ",
          Tok.param (s.valctr + 1), Tok.lit " OFFSET ", Tok.param (s.valctr + 2), Tok.lit ";"]
    clauses := s.clauses
    joins := []
    valctrFinal := s.valctr
    vals := s.vals ++ [Val.int (goUint64 p.Limit), Val.int (goUint64 p.Offset)] }

/-- Go `SearchCommands` up to the query it prepares: resolve ranges, run the
clause blocks, append GROUP BY / ORDER BY / LIMIT / OFFSET with the two
trailing parameter slots. -/
def searchCommandsQuery (p : SearchParameters) (doFoundAnything : Bool) (now : Int) :
    Except ParseFloatError BuiltQuery :=
  match makeIDsFromParams p with
  | Except.error e => Except.error e
  | Except.ok ids => Except.ok (mkCommandsQuery p ids now doFoundAnything)

/-- Query assembled by `SearchActions` once the ranges are resolved. -/
def mkActionsQuery (p : SearchParameters) (ids : IDs) (now : Int) : BuiltQuery :=
  let s := runSteps initState (actionsSteps p ids now)
  let joins := actionsJoinsOf s
  { toks := (Tok.lit ("SELECT " ++ actionsColumns ++ " FROM actions " ++ renderJoins joins ++ " WHERE ")
      :: whereToks s.clauses)
      ++ [Tok.lit " GROUP BY actions.id\n\t\tORDER BY actions.validfrom DESC LIMIT ",
          Tok.param (s.valctr + 1), Tok.lit " OFFSET ", Tok.param (s.valctr + 2), Tok.lit ";"]
    clauses := s.clauses
    joins := joins
    valctrFinal := s.valctr
    vals := s.vals ++ [Val.int (goUint64 p.Limit), Val.int (goUint64 p.Offset)] }

/-- Go `SearchActions` up to the query it prepares. -/
def searchActionsQuery (p : SearchParameters) (now : Int) : Except ParseFloatError BuiltQuery :=
  match makeIDsFromParams p with
  | Except.error e => Except.error e
  | Except.ok ids => Except.ok (mkActionsQuery p ids now)

/-- Query assembled by `SearchAgents` once the ranges are resolved. -/
def mkAgentsQuery (p : SearchParameters) (ids : IDs) (now : Int) : BuiltQuery :=
  let s := runSteps initState (agentsSteps p ids now)
  let joins := agentsJoinsOf s
  { toks := (Tok.lit ("SELECT " ++ agentsColumns ++ " FROM agents " ++ renderJoins joins ++ " WHERE ")
      :: whereToks s.clauses)
      ++ [Tok.lit " GROUP BY agents.id\n\t\tORDER BY agents.heartbeattime DESC LIMIT ",
          Tok.param (s.valctr + 1), Tok.lit " OFFSET ", Tok.param (s.valctr + 2), Tok.lit ";"]
    clauses := s.clauses
    joins := joins
    valctrFinal := s.valctr
    vals := s.vals ++ [Val.int (goUint64 p.Limit), Val.int (goUint64 p.Offset)] }

/-- Go `SearchAgents` up to the query it prepares. -/
def searchAgentsQuery (p : SearchParameters) (now : Int) : Except ParseFloatError BuiltQuery :=
  match makeIDsFromParams p with
  | Except.error e => Except.error e
  | Except.ok ids => Except.ok (mkAgentsQuery p ids now)

/-- Query assembled by `SearchInvestigators` once the ranges are resolved. -/
def mkInvestigatorsQuery (p : SearchParameters) (ids : IDs) (now : Int) : BuiltQuery :=
  let s := runSteps initState (investigatorsSteps p ids now)
  let joins := investigatorsJoinsOf s
  { toks := (Tok.lit ("SELECT " ++ investigatorsColumns ++ " FROM investigators " ++ renderJoins joins ++ " WHERE ")
      :: whereToks s.clauses)
      ++ [Tok.lit " GROUP BY investigators.id\n\t\tORDER BY investigators.id ASC LIMIT ",
          Tok.param (s.valctr + 1), Tok.lit " OFFSET ", Tok.param (s.valctr + 2), Tok.lit ";"]
    clauses := s.clauses
    joins := joins
    valctrFinal := s.valctr
    vals := s.vals ++ [Val.int (goUint64 p.Limit), Val.int (goUint64 p.Offset)] }

/-- Go `SearchInvestigators` up to the query it prepares. -/
def searchInvestigatorsQuery (p : SearchParameters) (now : Int) : Except ParseFloatError BuiltQuery :=
  match makeIDsFromParams p with
  | Except.error e => Except.error e
  | Except.ok ids => Except.ok (mkInvestigatorsQuery p ids now)

/-- Join requirements of the actions search as the spec (§4.3) states them:
AgentID or AgentName forces agents and commands; CommandID forces commands;
InvestigatorID or InvestigatorName forces signatures+investigators; final
order commands, agents, signatures+investigators, each at most once. -/
def actionsJoinsSpec (p : SearchParameters) : List JoinClause :=
  let g := p.AgentID != "∞" || p.AgentName != "%"
  let c := p.CommandID != "∞"
  let i := p.InvestigatorID != "∞" || p.InvestigatorName != "%"
  (if g || c then [JoinClause.commandsOnAction] else [])
  ++ (if g then [JoinClause.agentsOnCommands] else [])
  ++ (if i then [JoinClause.sigInvOnActions] else [])

/-- Join requirements of the agents search as the spec (§4.3) states them:
ActionID, ActionName or ThreatFamily forces actions and commands;
InvestigatorID or InvestigatorName forces investigators, commands and
actions; CommandID forces commands; final order commands, actions,
signatures+investigators. -/
def agentsJoinsSpec (p : SearchParameters) : List JoinClause :=
  let a := p.ActionID != "∞" || p.ActionName != "%" || p.ThreatFamily != "%"
  let i := p.InvestigatorID != "∞" || p.InvestigatorName != "%"
  let c := p.CommandID != "∞"
  (if a || i || c then [JoinClause.commandsOnAgents] else [])
  ++ (if a || i then [JoinClause.actionsOnCommands] else [])
  ++ (if i then [JoinClause.sigInvOnActions] else [])

/-- Join requirements of the investigators search as the spec (§4.3) states
them: ActionID, ActionName or ThreatFamily forces signatures+actions;
CommandID additionally forces commands; AgentID or AgentName additionally
forces agents; final order signatures+actions, commands, agents. -/
def investigatorsJoinsSpec (p : SearchParameters) : List JoinClause :=
  let a := p.ActionID != "∞" || p.ActionName != "%" || p.ThreatFamily != "%"
  let c := p.CommandID != "∞"
  let g := p.AgentID != "∞" || p.AgentName != "%"
  (if a || c || g then [JoinClause.sigActionsOnInv] else [])
  ++ (if c || g then [JoinClause.commandsOnAction] else [])
  ++ (if g then [JoinClause.agentsOnCommands] else [])

/-- A WHERE clause for this filter is justified: the filter differs from its
sentinel (or, for the found-anything clause, the restriction flag is set;
the two time bounds are governed by the one-hour tolerance, not by a
sentinel). -/
def clauseJustified (p : SearchParameters) (doFoundAnything : Bool) : Field → Prop
  | Field.before => True
  | Field.after => True
  | Field.commandID => p.CommandID ≠ "∞"
  | Field.status => p.Status ≠ "%"
  | Field.actionID => p.ActionID ≠ "∞"
  | Field.actionName => p.ActionName ≠ "%"
  | Field.investigatorID => p.InvestigatorID ≠ "∞"
  | Field.investigatorName => p.InvestigatorName ≠ "%"
  | Field.agentID => p.AgentID ≠ "∞"
  | Field.agentName => p.AgentName ≠ "%"
  | Field.foundAnything => doFoundAnything = true
  | Field.threatFamily => p.ThreatFamily ≠ "%"

/-- First literal token of a clause template (every template starts with
one). -/
def headLit : List Tok → String
  | Tok.lit s :: _ => s
  | _ => ""

/-- Boolean check that the first list is an initial segment of the second. -/
def charsPre : List Char → List Char → Bool
  | [], _ => true
  | _ :: _, [] => false
  | a :: as, b :: bs => a == b && charsPre as bs

/-- Boolean check that the first list occurs contiguously inside the second. -/
def charsSub (needle : List Char) : List Char → Bool
  | [] => charsPre needle []
  | b :: bs => charsPre needle (b :: bs) || charsSub needle bs

/-- Boolean substring test on strings. -/
def strContains (needle hay : String) : Bool := charsSub needle.data hay.data

/-- Boolean test that a string starts with the given text. -/
def strStarts (head s : String) : Bool := charsPre head.data s.data

/-- Joins of a search result, or [] on a parse failure. -/
def joinsOfE : Except ParseFloatError BuiltQuery → List JoinClause
  | Except.ok q => q.joins
  | Except.error _ => []

/-- Clauses of a search result, or [] on a parse failure. -/
def clausesOfE : Except ParseFloatError BuiltQuery → List Clause
  | Except.ok q => q.clauses
  | Except.error _ => []

/-- Rendered text of a search result, or "" on a parse failure. -/
def textOfE : Except ParseFloatError BuiltQuery → String
  | Except.ok q => q.text
  | Except.error _ => ""

/-- Every clause template of a step list uses exactly the next consecutive
parameter slots: given counter `m`, the slots `m+1 .. m+arity` in textual
order, where the arity is the number of values the step binds. -/
def goodToks (l : List Step) : Prop :=
  ∀ st ∈ l, ∀ m : Nat, paramsOf (st.toks m) = List.range' (m + 1) st.vals.length

/-- One-hour tolerance of the time-window clauses: a Before (resp. After)
within one hour of the default +10y (resp. -10y) boundary yields no before
(resp. after) clause, and an emitted clause implies the bound differs from
the boundary by more than one hour. -/
def timeWindowProp (p : SearchParameters) (now : Int) (q : BuiltQuery) : Prop :=
  (|p.Before - (now + defaultSearchPeriod)| ≤ hourSec →
      Field.before ∉ q.clauses.map (fun c => c.field)) ∧
  (Field.before ∈ q.clauses.map (fun c => c.field) →
      hourSec < |p.Before - (now + defaultSearchPeriod)|) ∧
  (|p.After - (now - defaultSearchPeriod)| ≤ hourSec →
      Field.after ∉ q.clauses.map (fun c => c.field)) ∧
  (Field.after ∈ q.clauses.map (fun c => c.field) →
      hourSec < |p.After - (now - defaultSearchPeriod)|)

/-- Positional-parameter discipline of a built query: placeholders are
exactly $1..$N consecutively in predicate order, the bound values are the
clauses' values in order followed by Limit and Offset in the two trailing
slots, the value list has length N, clause bases are consecutive, and each
clause uses exactly its own slots. -/
def paramFacts (p : SearchParameters) (q : BuiltQuery) : Prop :=
  paramsOf q.toks = List.range' 1 (q.valctrFinal + 2) ∧
  q.vals = (q.clauses.map (fun c => c.vals)).flatten
      ++ [Val.int (goUint64 p.Limit), Val.int (goUint64 p.Offset)] ∧
  q.vals.length = q.valctrFinal + 2 ∧
  basesFromB 0 q.clauses = true ∧
  ∀ c ∈ q.clauses, paramsOf c.toks = List.range' (c.base + 1) c.vals.length

/-! ## Generic characterization of the step interpreter -/

theorem runSteps_clauses (l : List Step) (s : BuildState) :
    (runSteps s l).clauses = s.clauses ++ buildClauses s.valctr l := by
  induction l generalizing s with
  | nil => simp [runSteps, buildClauses]
  | cons st rest ih =>
    cases hst : st.active <;>
      simp [runSteps, applyStep, hst, buildClauses, ih]

theorem runSteps_valctr (l : List Step) (s : BuildState) :
    (runSteps s l).valctr = s.valctr + arsum l := by
  induction l generalizing s with
  | nil => simp [runSteps, arsum]
  | cons st rest ih =>
    cases hst : st.active <;>
      simp [runSteps, applyStep, hst, arsum, ih] <;> omega

theorem runSteps_vals (l : List Step) (s : BuildState) :
    (runSteps s l).vals = s.vals ++ valsJoin l := by
  induction l generalizing s with
  | nil => simp [runSteps, valsJoin]
  | cons st rest ih =>
    cases hst : st.active <;>
      simp [runSteps, applyStep, hst, valsJoin, ih]

theorem runSteps_joinAction (l : List Step) (s : BuildState) :
    (runSteps s l).joinAction = (s.joinAction || l.any (fun st => st.active && st.setAction)) := by
  induction l generalizing s with
  | nil => simp [runSteps]
  | cons st rest ih =>
    cases hst : st.active <;>
      simp [runSteps, applyStep, hst, ih, Bool.or_assoc]

theorem runSteps_joinAgent (l : List Step) (s : BuildState) :
    (runSteps s l).joinAgent = (s.joinAgent || l.any (fun st => st.active && st.setAgent)) := by
  induction l generalizing s with
  | nil => simp [runSteps]
  | cons st rest ih =>
    cases hst : st.active <;>
      simp [runSteps, applyStep, hst, ih, Bool.or_assoc]

theorem runSteps_joinCommand (l : List Step) (s : BuildState) :
    (runSteps s l).joinCommand = (s.joinCommand || l.any (fun st => st.active && st.setCommand)) := by
  induction l generalizing s with
  | nil => simp [runSteps]
  | cons st rest ih =>
    cases hst : st.active <;>
      simp [runSteps, applyStep, hst, ih, Bool.or_assoc]

theorem runSteps_joinInvestigator (l : List Step) (s : BuildState) :
    (runSteps s l).joinInvestigator = (s.joinInvestigator || l.any (fun st => st.active && st.setInvestigator)) := by
  induction l generalizing s with
  | nil => simp [runSteps]
  | cons st rest ih =>
    cases hst : st.active <;>
      simp [runSteps, applyStep, hst, ih, Bool.or_assoc]

theorem buildClauses_fields (n : Nat) (l : List Step) :
    (buildClauses n l).map (fun c => c.field) = (l.filter (fun st => st.active)).map (fun st => st.field) := by
  induction l generalizing n with
  | nil => simp [buildClauses]
  | cons st rest ih =>
    cases hst : st.active <;> simp [buildClauses, hst, ih]

theorem mem_buildClauses_field_iff (f : Field) (n : Nat) (l : List Step) :
    (f ∈ (buildClauses n l).map (fun c => c.field)) ↔
      ∃ st, st ∈ l ∧ st.active = true ∧ st.field = f := by
  rw [buildClauses_fields]
  simp only [List.mem_map, List.mem_filter]
  constructor
  · rintro ⟨st, ⟨h1, h2⟩, h3⟩
    exact ⟨st, h1, h2, h3⟩
  · rintro ⟨st, h1, h2, h3⟩
    exact ⟨st, ⟨h1, h2⟩, h3⟩

theorem buildClauses_bases (n : Nat) (l : List Step) :
    basesFromB n (buildClauses n l) = true := by
  induction l generalizing n with
  | nil => simp [buildClauses, basesFromB]
  | cons st rest ih =>
    cases hst : st.active <;> simp [buildClauses, hst, basesFromB, ih]

theorem buildClauses_vals (n : Nat) (l : List Step) :
    ((buildClauses n l).map (fun c => c.vals)).flatten = valsJoin l := by
  induction l generalizing n with
  | nil => simp [buildClauses, valsJoin]
  | cons st rest ih =>
    cases hst : st.active <;> simp [buildClauses, hst, valsJoin, ih]

theorem valsJoin_length (l : List Step) : (valsJoin l).length = arsum l := by
  induction l with
  | nil => simp [valsJoin, arsum]
  | cons st rest ih =>
    cases hst : st.active <;> simp [valsJoin, hst, arsum, ih]

theorem buildClauses_forall (P : Clause → Prop) (n : Nat) (l : List Step)
    (h : ∀ st ∈ l, st.active = true → ∀ m : Nat, P ⟨st.field, m, st.toks m, st.vals⟩) :
    ∀ c ∈ buildClauses n l, P c := by
  induction l generalizing n with
  | nil => simp [buildClauses]
  | cons st rest ih =>
    intro c hc
    have hrest : ∀ st2 ∈ rest, st2.active = true → ∀ m : Nat,
        P ⟨st2.field, m, st2.toks m, st2.vals⟩ :=
      fun st2 h2 => h st2 (List.mem_cons_of_mem _ h2)
    cases hst : st.active with
    | false =>
      simp only [buildClauses, hst, Bool.false_eq_true, if_false] at hc
      exact ih n hrest c hc
    | true =>
      simp only [buildClauses, hst, if_true] at hc
      rcases List.mem_cons.mp hc with rfl | hc2
      · exact h st (List.mem_cons_self _ _) hst n
      · exact ih _ hrest c hc2

theorem buildClauses_mem (st : Step) (l : List Step) (n : Nat)
    (hst : st ∈ l) (ha : st.active = true) :
    ∃ m : Nat, (⟨st.field, m, st.toks m, st.vals⟩ : Clause) ∈ buildClauses n l := by
  induction l generalizing n with
  | nil => cases hst
  | cons st0 rest ih =>
    rcases List.mem_cons.mp hst with rfl | h
    · exact ⟨n, by simp [buildClauses, ha]⟩
    · cases h0 : st0.active with
      | false =>
        obtain ⟨m, hm⟩ := ih n h
        exact ⟨m, by simp [buildClauses, h0, hm]⟩
      | true =>
        obtain ⟨m, hm⟩ := ih (n + st0.vals.length) h
        exact ⟨m, by simp only [buildClauses, h0, if_true, List.mem_cons]; exact Or.inr hm⟩

theorem paramsOf_append (a b : List Tok) :
    paramsOf (a ++ b) = paramsOf a ++ paramsOf b := by
  induction a with
  | nil => simp [paramsOf]
  | cons t rest ih => cases t <;> simp [paramsOf, ih]

theorem paramsOf_whereToks (cs : List Clause) :
    paramsOf (whereToks cs) = (cs.map (fun c => paramsOf c.toks)).flatten := by
  induction cs with
  | nil => simp [whereToks, paramsOf]
  | cons c rest ih =>
    cases rest with
    | nil => simp [whereToks, paramsOf]
    | cons c2 rest2 =>
      rw [whereToks, paramsOf_append]
      have h1 : paramsOf (Tok.lit " AND " :: whereToks (c2 :: rest2)) =
          paramsOf (whereToks (c2 :: rest2)) := rfl
      rw [h1, ih]
      simp [List.map_cons, List.flatten_cons]

theorem range'_cons_two (a : Nat) : List.range' a 2 = [a, a + 1] := by
  simp [List.range']

theorem range'_glue (s m n : Nat) :
    List.range' s m ++ List.range' (s + m) n = List.range' s (m + n) := by
  have := List.range'_append s m n 1
  simpa [Nat.add_comm] using this

theorem buildClauses_params (n : Nat) (l : List Step) (h : goodToks l) :
    ((buildClauses n l).map (fun c => paramsOf c.toks)).flatten = List.range' (n + 1) (arsum l) := by
  induction l generalizing n with
  | nil => simp [buildClauses, arsum]
  | cons st rest ih =>
    have hrest : goodToks rest := fun st2 h2 => h st2 (List.mem_cons_of_mem _ h2)
    cases hst : st.active with
    | false =>
      simp only [buildClauses, hst, Bool.false_eq_true, if_false]
      rw [ih n hrest]
      simp [arsum, hst]
    | true =>
      simp only [buildClauses, hst, if_true, List.map_cons, List.flatten_cons]
      rw [h st (List.mem_cons_self _ _) n, ih (n + st.vals.length) hrest]
      have h2 : n + st.vals.length + 1 = (n + 1) + st.vals.length := by omega
      rw [h2, range'_glue]
      simp [arsum, hst]

theorem whereToks_params (n : Nat) (l : List Step) (h : goodToks l) :
    paramsOf (whereToks (buildClauses n l)) = List.range' (n + 1) (arsum l) := by
  rw [paramsOf_whereToks, buildClauses_params n l h]

/-! ## Per-search instantiations -/

theorem commandsSteps_good (p : SearchParameters) (ids : IDs) (now : Int) (doFA : Bool) :
    goodToks (commandsSteps p ids now doFA) := by
  intro st hst m
  simp only [commandsSteps, List.mem_cons, List.not_mem_nil, or_false] at hst
  rcases hst with rfl | rfl | rfl | rfl | rfl | rfl | rfl | rfl | rfl | rfl | rfl | rfl <;>
    simp [paramsOf, List.range'] <;> omega

theorem actionsSteps_good (p : SearchParameters) (ids : IDs) (now : Int) :
    goodToks (actionsSteps p ids now) := by
  intro st hst m
  simp only [actionsSteps, List.mem_cons, List.not_mem_nil, or_false] at hst
  rcases hst with rfl | rfl | rfl | rfl | rfl | rfl | rfl | rfl | rfl | rfl | rfl <;>
    simp [paramsOf, List.range'] <;> omega

theorem agentsSteps_good (p : SearchParameters) (ids : IDs) (now : Int) :
    goodToks (agentsSteps p ids now) := by
  intro st hst m
  simp only [agentsSteps, List.mem_cons, List.not_mem_nil, or_false] at hst
  rcases hst with rfl | rfl | rfl | rfl | rfl | rfl | rfl | rfl | rfl | rfl | rfl <;>
    simp [paramsOf, List.range'] <;> omega

theorem investigatorsSteps_good (p : SearchParameters) (ids : IDs) (now : Int) :
    goodToks (investigatorsSteps p ids now) := by
  intro st hst m
  simp only [investigatorsSteps, List.mem_cons, List.not_mem_nil, or_false] at hst
  rcases hst with rfl | rfl | rfl | rfl | rfl | rfl | rfl | rfl | rfl | rfl | rfl <;>
    simp [paramsOf, List.range'] <;> omega

theorem actions_joins_eq (p : SearchParameters) (ids : IDs) (now : Int) :
    actionsJoinsOf (runSteps initState (actionsSteps p ids now)) = actionsJoinsSpec p := by
  simp [actionsJoinsOf, actionsJoinsSpec, runSteps_joinCommand, runSteps_joinAgent,
    runSteps_joinInvestigator, actionsSteps, initState, Bool.or_assoc]

theorem agents_joins_eq (p : SearchParameters) (ids : IDs) (now : Int) :
    agentsJoinsOf (runSteps initState (agentsSteps p ids now)) = agentsJoinsSpec p := by
  simp [agentsJoinsOf, agentsJoinsSpec, runSteps_joinCommand, runSteps_joinAction,
    runSteps_joinInvestigator, agentsSteps, initState, Bool.or_assoc]

theorem investigators_joins_eq (p : SearchParameters) (ids : IDs) (now : Int) :
    investigatorsJoinsOf (runSteps initState (investigatorsSteps p ids now)) = investigatorsJoinsSpec p := by
  simp [investigatorsJoinsOf, investigatorsJoinsSpec, runSteps_joinCommand, runSteps_joinAction,
    runSteps_joinAgent, investigatorsSteps, initState, Bool.or_assoc]

theorem commands_mem_before (p : SearchParameters) (ids : IDs) (now : Int) (doFA : Bool) :
    (Field.before ∈ (runSteps initState (commandsSteps p ids now doFA)).clauses.map (fun c => c.field)) ↔
      p.Before < now + (defaultSearchPeriod - hourSec) := by
  rw [runSteps_clauses]
  simp only [initState, List.nil_append]
  rw [mem_buildClauses_field_iff]
  simp [commandsSteps]

theorem commands_mem_after (p : SearchParameters) (ids : IDs) (now : Int) (doFA : Bool) :
    (Field.after ∈ (runSteps initState (commandsSteps p ids now doFA)).clauses.map (fun c => c.field)) ↔
      now - (defaultSearchPeriod - hourSec) < p.After := by
  rw [runSteps_clauses]
  simp only [initState, List.nil_append]
  rw [mem_buildClauses_field_iff]
  simp [commandsSteps]

theorem actions_mem_before (p : SearchParameters) (ids : IDs) (now : Int) :
    (Field.before ∈ (runSteps initState (actionsSteps p ids now)).clauses.map (fun c => c.field)) ↔
      p.Before < now + (defaultSearchPeriod - hourSec) := by
  rw [runSteps_clauses]
  simp only [initState, List.nil_append]
  rw [mem_buildClauses_field_iff]
  simp [actionsSteps]

theorem actions_mem_after (p : SearchParameters) (ids : IDs) (now : Int) :
    (Field.after ∈ (runSteps initState (actionsSteps p ids now)).clauses.map (fun c => c.field)) ↔
      now - (defaultSearchPeriod - hourSec) < p.After := by
  rw [runSteps_clauses]
  simp only [initState, List.nil_append]
  rw [mem_buildClauses_field_iff]
  simp [actionsSteps]

theorem agents_mem_before (p : SearchParameters) (ids : IDs) (now : Int) :
    (Field.before ∈ (runSteps initState (agentsSteps p ids now)).clauses.map (fun c => c.field)) ↔
      p.Before < now + (defaultSearchPeriod - hourSec) := by
  rw [runSteps_clauses]
  simp only [initState, List.nil_append]
  rw [mem_buildClauses_field_iff]
  simp [agentsSteps]

theorem agents_mem_after (p : SearchParameters) (ids : IDs) (now : Int) :
    (Field.after ∈ (runSteps initState (agentsSteps p ids now)).clauses.map (fun c => c.field)) ↔
      now - (defaultSearchPeriod - hourSec) < p.After := by
  rw [runSteps_clauses]
  simp only [initState, List.nil_append]
  rw [mem_buildClauses_field_iff]
  simp [agentsSteps]

theorem investigators_mem_before (p : SearchParameters) (ids : IDs) (now : Int) :
    (Field.before ∈ (runSteps initState (investigatorsSteps p ids now)).clauses.map (fun c => c.field)) ↔
      p.Before < now + (defaultSearchPeriod - hourSec) := by
  rw [runSteps_clauses]
  simp only [initState, List.nil_append]
  rw [mem_buildClauses_field_iff]
  simp [investigatorsSteps]

theorem investigators_mem_after (p : SearchParameters) (ids : IDs) (now : Int) :
    (Field.after ∈ (runSteps initState (investigatorsSteps p ids now)).clauses.map (fun c => c.field)) ↔
      now - (defaultSearchPeriod - hourSec) < p.After := by
  rw [runSteps_clauses]
  simp only [initState, List.nil_append]
  rw [mem_buildClauses_field_iff]
  simp [investigatorsSteps]

/-! ## Range resolver lemmas -/

theorem resolveID_sentinel : resolveID "∞" = Except.ok (0, MAXFLOAT64) := rfl

theorem resolveID_ok_char (s : String) (r : Rat × Rat) (h : resolveID s = Except.ok r) :
    (s = "∞" ∧ r = (0, MAXFLOAT64)) ∨
      (s ≠ "∞" ∧ parseGoFloat s = some r.1 ∧ r.2 = r.1) := by
  by_cases hs : s = "∞"
  · left
    refine ⟨hs, ?_⟩
    rw [resolveID, if_pos hs] at h
    cases h
    rfl
  · right
    rw [resolveID, if_neg hs] at h
    cases hp : parseGoFloat s with
    | none => rw [hp] at h; cases h
    | some v =>
      rw [hp] at h
      cases h
      exact ⟨hs, rfl, rfl⟩

theorem resolveID_isOk_iff (s : String) :
    (∃ r, resolveID s = Except.ok r) ↔ (s = "∞" ∨ (parseGoFloat s).isSome = true) := by
  rw [resolveID]
  by_cases hs : s = "∞"
  · simp [hs]
  · simp only [if_neg hs]
    cases hp : parseGoFloat s <;> simp [hs, hp]

theorem resolveID_error_char (s : String) (e : ParseFloatError) (h : resolveID s = Except.error e) :
    s ≠ "∞" ∧ parseGoFloat s = none ∧ e = ParseFloatError.syntaxErr s := by
  by_cases hs : s = "∞"
  · rw [resolveID, if_pos hs] at h; cases h
  · rw [resolveID, if_neg hs] at h
    cases hp : parseGoFloat s with
    | none => rw [hp] at h; cases h; exact ⟨hs, rfl, rfl⟩
    | some v => rw [hp] at h; cases h

theorem resolveID_not_sentinel (s : String) (v : Rat) (hs : s ≠ "∞")
    (hp : parseGoFloat s = some v) : resolveID s = Except.ok (v, v) := by
  rw [resolveID, if_neg hs, hp]

theorem makeIDs_ok_ranges (p : SearchParameters) (ids : IDs)
    (h : makeIDsFromParams p = Except.ok ids) :
    ((p.ActionID = "∞" ∧ ids.minActionID = 0 ∧ ids.maxActionID = MAXFLOAT64) ∨
      (p.ActionID ≠ "∞" ∧ parseGoFloat p.ActionID = some ids.minActionID ∧ ids.maxActionID = ids.minActionID)) ∧
    ((p.CommandID = "∞" ∧ ids.minCommandID = 0 ∧ ids.maxCommandID = MAXFLOAT64) ∨
      (p.CommandID ≠ "∞" ∧ parseGoFloat p.CommandID = some ids.minCommandID ∧ ids.maxCommandID = ids.minCommandID)) ∧
    ((p.AgentID = "∞" ∧ ids.minAgentID = 0 ∧ ids.maxAgentID = MAXFLOAT64) ∨
      (p.AgentID ≠ "∞" ∧ parseGoFloat p.AgentID = some ids.minAgentID ∧ ids.maxAgentID = ids.minAgentID)) ∧
    ((p.InvestigatorID = "∞" ∧ ids.minInvID = 0 ∧ ids.maxInvID = MAXFLOAT64) ∨
      (p.InvestigatorID ≠ "∞" ∧ parseGoFloat p.InvestigatorID = some ids.minInvID ∧ ids.maxInvID = ids.minInvID)) := by
  rw [makeIDsFromParams] at h
  cases hA : resolveID p.ActionID with
  | error e => rw [hA] at h; cases h
  | ok rA =>
    rw [hA] at h
    cases hC : resolveID p.CommandID with
    | error e => rw [hC] at h; cases h
    | ok rC =>
      rw [hC] at h
      cases hG : resolveID p.AgentID with
      | error e => rw [hG] at h; cases h
      | ok rG =>
        rw [hG] at h
        cases hI : resolveID p.InvestigatorID with
        | error e => rw [hI] at h; cases h
        | ok rI =>
          rw [hI] at h
          cases h
          refine ⟨?_, ?_, ?_, ?_⟩
          · rcases resolveID_ok_char _ _ hA with ⟨h1, h2⟩ | ⟨h1, h2, h3⟩
            · left; exact ⟨h1, by rw [h2], by rw [h2]⟩
            · right; exact ⟨h1, h2, h3⟩
          · rcases resolveID_ok_char _ _ hC with ⟨h1, h2⟩ | ⟨h1, h2, h3⟩
            · left; exact ⟨h1, by rw [h2], by rw [h2]⟩
            · right; exact ⟨h1, h2, h3⟩
          · rcases resolveID_ok_char _ _ hG with ⟨h1, h2⟩ | ⟨h1, h2, h3⟩
            · left; exact ⟨h1, by rw [h2], by rw [h2]⟩
            · right; exact ⟨h1, h2, h3⟩
          · rcases resolveID_ok_char _ _ hI with ⟨h1, h2⟩ | ⟨h1, h2, h3⟩
            · left; exact ⟨h1, by rw [h2], by rw [h2]⟩
            · right; exact ⟨h1, h2, h3⟩

theorem makeIDs_isOk_iff (p : SearchParameters) :
    (makeIDsFromParams p).isOk = true ↔
      ((p.ActionID = "∞" ∨ (parseGoFloat p.ActionID).isSome = true) ∧
       (p.CommandID = "∞" ∨ (parseGoFloat p.CommandID).isSome = true) ∧
       (p.AgentID = "∞" ∨ (parseGoFloat p.AgentID).isSome = true) ∧
       (p.InvestigatorID = "∞" ∨ (parseGoFloat p.InvestigatorID).isSome = true)) := by
  rw [makeIDsFromParams]
  cases hA : resolveID p.ActionID with
  | error e =>
    obtain ⟨h1, h2, _⟩ := resolveID_error_char _ _ hA
    simp [Except.isOk, Except.toBool, h1, h2]
  | ok rA =>
    have okA : p.ActionID = "∞" ∨ (parseGoFloat p.ActionID).isSome = true := by
      rcases resolveID_ok_char _ _ hA with ⟨h1, _⟩ | ⟨_, h2, _⟩
      · exact Or.inl h1
      · exact Or.inr (by rw [h2]; rfl)
    cases hC : resolveID p.CommandID with
    | error e =>
      obtain ⟨h1, h2, _⟩ := resolveID_error_char _ _ hC
      simp [Except.isOk, Except.toBool, h1, h2]
    | ok rC =>
      have okC : p.CommandID = "∞" ∨ (parseGoFloat p.CommandID).isSome = true := by
        rcases resolveID_ok_char _ _ hC with ⟨h1, _⟩ | ⟨_, h2, _⟩
        · exact Or.inl h1
        · exact Or.inr (by rw [h2]; rfl)
      cases hG : resolveID p.AgentID with
      | error e =>
        obtain ⟨h1, h2, _⟩ := resolveID_error_char _ _ hG
        simp [Except.isOk, Except.toBool, h1, h2]
      | ok rG =>
        have okG : p.AgentID = "∞" ∨ (parseGoFloat p.AgentID).isSome = true := by
          rcases resolveID_ok_char _ _ hG with ⟨h1, _⟩ | ⟨_, h2, _⟩
          · exact Or.inl h1
          · exact Or.inr (by rw [h2]; rfl)
        cases hI : resolveID p.InvestigatorID with
        | error e =>
          obtain ⟨h1, h2, _⟩ := resolveID_error_char _ _ hI
          simp [Except.isOk, Except.toBool, h1, h2]
        | ok rI =>
          have okI : p.InvestigatorID = "∞" ∨ (parseGoFloat p.InvestigatorID).isSome = true := by
            rcases resolveID_ok_char _ _ hI with ⟨h1, _⟩ | ⟨_, h2, _⟩
            · exact Or.inl h1
            · exact Or.inr (by rw [h2]; rfl)
          simp [Except.isOk, Except.toBool, okA, okC, okG, okI]

theorem makeIDs_error_prop (p : SearchParameters) (e : ParseFloatError)
    (h : makeIDsFromParams p = Except.error e) :
    ∃ s, e = ParseFloatError.syntaxErr s ∧ s ≠ "∞" ∧ parseGoFloat s = none := by
  rw [makeIDsFromParams] at h
  cases hA : resolveID p.ActionID with
  | error eA =>
    rw [hA] at h
    cases h
    obtain ⟨h1, h2, h3⟩ := resolveID_error_char _ _ hA
    exact ⟨p.ActionID, h3, h1, h2⟩
  | ok rA =>
    rw [hA] at h
    cases hC : resolveID p.CommandID with
    | error eC =>
      rw [hC] at h
      cases h
      obtain ⟨h1, h2, h3⟩ := resolveID_error_char _ _ hC
      exact ⟨p.CommandID, h3, h1, h2⟩
    | ok rC =>
      rw [hC] at h
      cases hG : resolveID p.AgentID with
      | error eG =>
        rw [hG] at h
        cases h
        obtain ⟨h1, h2, h3⟩ := resolveID_error_char _ _ hG
        exact ⟨p.AgentID, h3, h1, h2⟩
      | ok rG =>
        rw [hG] at h
        cases hI : resolveID p.InvestigatorID with
        | error eI =>
          rw [hI] at h
          cases h
          obtain ⟨h1, h2, h3⟩ := resolveID_error_char _ _ hI
          exact ⟨p.InvestigatorID, h3, h1, h2⟩
        | ok rI => rw [hI] at h; cases h

/-! ## Search-operation inversion and error propagation -/

theorem searchCommandsQuery_ok_inv (p : SearchParameters) (doFA : Bool) (now : Int) (q : BuiltQuery)
    (h : searchCommandsQuery p doFA now = Except.ok q) :
    ∃ ids, makeIDsFromParams p = Except.ok ids ∧ q = mkCommandsQuery p ids now doFA := by
  rw [searchCommandsQuery] at h
  cases hm : makeIDsFromParams p with
  | error e => rw [hm] at h; cases h
  | ok ids => rw [hm] at h; cases h; exact ⟨ids, rfl, rfl⟩

theorem searchActionsQuery_ok_inv (p : SearchParameters) (now : Int) (q : BuiltQuery)
    (h : searchActionsQuery p now = Except.ok q) :
    ∃ ids, makeIDsFromParams p = Except.ok ids ∧ q = mkActionsQuery p ids now := by
  rw [searchActionsQuery] at h
  cases hm : makeIDsFromParams p with
  | error e => rw [hm] at h; cases h
  | ok ids => rw [hm] at h; cases h; exact ⟨ids, rfl, rfl⟩

theorem searchAgentsQuery_ok_inv (p : SearchParameters) (now : Int) (q : BuiltQuery)
    (h : searchAgentsQuery p now = Except.ok q) :
    ∃ ids, makeIDsFromParams p = Except.ok ids ∧ q = mkAgentsQuery p ids now := by
  rw [searchAgentsQuery] at h
  cases hm : makeIDsFromParams p with
  | error e => rw [hm] at h; cases h
  | ok ids => rw [hm] at h; cases h; exact ⟨ids, rfl, rfl⟩

theorem searchInvestigatorsQuery_ok_inv (p : SearchParameters) (now : Int) (q : BuiltQuery)
    (h : searchInvestigatorsQuery p now = Except.ok q) :
    ∃ ids, makeIDsFromParams p = Except.ok ids ∧ q = mkInvestigatorsQuery p ids now := by
  rw [searchInvestigatorsQuery] at h
  cases hm : makeIDsFromParams p with
  | error e => rw [hm] at h; cases h
  | ok ids => rw [hm] at h; cases h; exact ⟨ids, rfl, rfl⟩

theorem searchCommandsQuery_error (p : SearchParameters) (doFA : Bool) (now : Int)
    (e : ParseFloatError) (h : makeIDsFromParams p = Except.error e) :
    searchCommandsQuery p doFA now = Except.error e := by
  rw [searchCommandsQuery, h]

theorem searchActionsQuery_error (p : SearchParameters) (now : Int)
    (e : ParseFloatError) (h : makeIDsFromParams p = Except.error e) :
    searchActionsQuery p now = Except.error e := by
  rw [searchActionsQuery, h]

theorem searchAgentsQuery_error (p : SearchParameters) (now : Int)
    (e : ParseFloatError) (h : makeIDsFromParams p = Except.error e) :
    searchAgentsQuery p now = Except.error e := by
  rw [searchAgentsQuery, h]

theorem searchInvestigatorsQuery_error (p : SearchParameters) (now : Int)
    (e : ParseFloatError) (h : makeIDsFromParams p = Except.error e) :
    searchInvestigatorsQuery p now = Except.error e := by
  rw [searchInvestigatorsQuery, h]

/-! ## Sentinel justification of emitted clauses -/

theorem commands_clauses_justified (p : SearchParameters) (ids : IDs) (now : Int) (doFA : Bool) :
    ∀ c ∈ (runSteps initState (commandsSteps p ids now doFA)).clauses,
      clauseJustified p doFA c.field := by
  rw [runSteps_clauses]
  simp only [initState, List.nil_append]
  apply buildClauses_forall
  intro st hst ha m
  simp only [commandsSteps, List.mem_cons, List.not_mem_nil, or_false] at hst
  rcases hst with rfl | rfl | rfl | rfl | rfl | rfl | rfl | rfl | rfl | rfl | rfl | rfl <;>
    simp only [clauseJustified] <;> first | trivial | (simpa using ha)

theorem actions_clauses_justified (p : SearchParameters) (ids : IDs) (now : Int) (doFA : Bool) :
    ∀ c ∈ (runSteps initState (actionsSteps p ids now)).clauses,
      clauseJustified p doFA c.field := by
  rw [runSteps_clauses]
  simp only [initState, List.nil_append]
  apply buildClauses_forall
  intro st hst ha m
  simp only [actionsSteps, List.mem_cons, List.not_mem_nil, or_false] at hst
  rcases hst with rfl | rfl | rfl | rfl | rfl | rfl | rfl | rfl | rfl | rfl | rfl <;>
    simp only [clauseJustified] <;> first | trivial | (simpa using ha)

theorem agents_clauses_justified (p : SearchParameters) (ids : IDs) (now : Int) (doFA : Bool) :
    ∀ c ∈ (runSteps initState (agentsSteps p ids now)).clauses,
      clauseJustified p doFA c.field := by
  rw [runSteps_clauses]
  simp only [initState, List.nil_append]
  apply buildClauses_forall
  intro st hst ha m
  simp only [agentsSteps, List.mem_cons, List.not_mem_nil, or_false] at hst
  rcases hst with rfl | rfl | rfl | rfl | rfl | rfl | rfl | rfl | rfl | rfl | rfl <;>
    simp only [clauseJustified] <;> first | trivial | (simpa using ha)

theorem investigators_clauses_justified (p : SearchParameters) (ids : IDs) (now : Int) (doFA : Bool) :
    ∀ c ∈ (runSteps initState (investigatorsSteps p ids now)).clauses,
      clauseJustified p doFA c.field := by
  rw [runSteps_clauses]
  simp only [initState, List.nil_append]
  apply buildClauses_forall
  intro st hst ha m
  simp only [investigatorsSteps, List.mem_cons, List.not_mem_nil, or_false] at hst
  rcases hst with rfl | rfl | rfl | rfl | rfl | rfl | rfl | rfl | rfl | rfl | rfl <;>
    simp only [clauseJustified] <;> first | trivial | (simpa using ha)

/-! ## Specific clause shapes -/

theorem actions_status_clause (p : SearchParameters) (ids : IDs) (now : Int)
    (hs : p.Status ≠ "%") :
    ∃ m, (⟨Field.status, m, [Tok.lit "action.status ILIKE ", Tok.param (m + 1)],
        [Val.str p.Status]⟩ : Clause)
      ∈ (runSteps initState (actionsSteps p ids now)).clauses := by
  rw [runSteps_clauses]
  simp only [initState, List.nil_append]
  have hmem : (⟨p.Status != "%", Field.status,
      fun n => [Tok.lit "action.status ILIKE ", Tok.param (n + 1)],
      [Val.str p.Status], false, false, false, false⟩ : Step) ∈ actionsSteps p ids now := by
    simp [actionsSteps]
  have h2 := buildClauses_mem _ _ 0 hmem (by simpa using hs)
  simpa using h2

theorem actions_status_clause_shape (p : SearchParameters) (ids : IDs) (now : Int) :
    ∀ c ∈ (runSteps initState (actionsSteps p ids now)).clauses,
      c.field = Field.status →
        c.toks = [Tok.lit "action.status ILIKE ", Tok.param (c.base + 1)] := by
  rw [runSteps_clauses]
  simp only [initState, List.nil_append]
  apply buildClauses_forall
  intro st hst ha m
  simp only [actionsSteps, List.mem_cons, List.not_mem_nil, or_false] at hst
  rcases hst with rfl | rfl | rfl | rfl | rfl | rfl | rfl | rfl | rfl | rfl | rfl <;>
    intro hf <;> first | rfl | simp at hf

theorem actions_other_clauses_not_action (p : SearchParameters) (ids : IDs) (now : Int) :
    ∀ c ∈ (runSteps initState (actionsSteps p ids now)).clauses,
      c.field ≠ Field.status → strStarts "action." (headLit c.toks) = false := by
  rw [runSteps_clauses]
  simp only [initState, List.nil_append]
  apply buildClauses_forall
  intro st hst ha m
  simp only [actionsSteps, List.mem_cons, List.not_mem_nil, or_false] at hst
  rcases hst with rfl | rfl | rfl | rfl | rfl | rfl | rfl | rfl | rfl | rfl | rfl <;>
    intro hne <;> first | rfl | simp at hne

theorem joinClause_tables_not_action (j : JoinClause) : ¬ "action" ∈ j.tables := by
  cases j <;> decide

theorem commands_fa_clause (p : SearchParameters) (ids : IDs) (now : Int) :
    ∃ m, (⟨Field.foundAnything, m, faTemplate m,
        [Val.str statusSuccess, Val.num ids.minActionID, Val.num ids.maxActionID,
         Val.bool p.FoundAnything]⟩ : Clause)
      ∈ (runSteps initState (commandsSteps p ids now true)).clauses := by
  rw [runSteps_clauses]
  simp only [initState, List.nil_append]
  have hmem : (⟨true, Field.foundAnything, faTemplate,
      [Val.str statusSuccess, Val.num ids.minActionID, Val.num ids.maxActionID,
       Val.bool p.FoundAnything], false, false, false, false⟩ : Step) ∈ commandsSteps p ids now true := by
    simp [commandsSteps]
  have h2 := buildClauses_mem _ _ 0 hmem rfl
  simpa using h2

/-! ## Substring lifting -/

theorem charsPre_append (n h t : List Char) (hp : charsPre n h = true) :
    charsPre n (h ++ t) = true := by
  induction n generalizing h with
  | nil => simp [charsPre]
  | cons a as ih =>
    cases h with
    | nil => cases hp
    | cons b bs =>
      simp only [charsPre, Bool.and_eq_true] at hp
      simp only [List.cons_append, charsPre, Bool.and_eq_true]
      exact ⟨hp.1, ih bs hp.2⟩

theorem charsSub_append (n h t : List Char) (hs : charsSub n h = true) :
    charsSub n (h ++ t) = true := by
  induction h with
  | nil =>
    cases n with
    | nil => cases t <;> simp [charsSub, charsPre]
    | cons a as => simp [charsSub, charsPre] at hs
  | cons b bs ih =>
    simp only [charsSub, Bool.or_eq_true] at hs
    simp only [List.cons_append, charsSub, Bool.or_eq_true]
    rcases hs with h1 | h2
    · exact Or.inl (charsPre_append _ _ _ h1)
    · exact Or.inr (ih h2)

theorem strContains_append_left (n a b : String) (h : strContains n a = true) :
    strContains n (a ++ b) = true := by
  simp only [strContains, String.data_append]
  exact charsSub_append _ _ _ h

/-! ## Query-string serialization -/

theorem opt_app (c : Prop) [Decidable c] (q a b : String) :
    (if c then q ++ a ++ b else q) = q ++ (if c then a ++ b else "") := by
  split
  · rw [String.append_assoc]
  · exact (String.append_empty q).symm

theorem segJoin_append (l1 l2 : List (String × String)) :
    segJoin (l1 ++ l2) = segJoin l1 ++ segJoin l2 := by
  induction l1 with
  | nil => simp [segJoin, String.empty_append]
  | cons kv rest ih => simp [segJoin, ih, String.append_assoc]

theorem segJoin_ite (c : Prop) [Decidable c] (x : String × String) :
    segJoin (if c then [x] else []) = (if c then x.2 else "") := by
  split <;> simp [segJoin, String.append_empty]

theorem string_eq_segments (p : SearchParameters) :
    p.string = segJoin (stringSegments p) := by
  simp only [SearchParameters.string, stringSegments]
  simp only [segJoin_append, segJoin_ite, opt_app]
  simp [segJoin, String.append_assoc, String.append_empty]

theorem segments_keys (p : SearchParameters) :
    (stringSegments p).map Prod.fst =
      ["type", "after", "before"]
      ++ (if p.AgentName ≠ "%" then ["agentname"] else [])
      ++ (if p.AgentID ≠ "∞" then ["agentid"] else [])
      ++ (if p.ActionName ≠ "%" then ["actionname"] else [])
      ++ (if p.ActionID ≠ "∞" then ["actionid"] else [])
      ++ (if p.CommandID ≠ "∞" then ["commandid"] else [])
      ++ (if p.InvestigatorID ≠ "∞" then ["investigatorid"] else [])
      ++ (if p.InvestigatorName ≠ "%" then ["investigatorname"] else [])
      ++ (if p.ThreatFamily ≠ "%" then ["threatfamily"] else [])
      ++ (if p.Status ≠ "%" then ["status"] else [])
      ++ ["limit"]
      ++ (if p.Offset ≠ 0 then ["offset"] else []) := by
  simp only [stringSegments, List.map_append, apply_ite (List.map (Prod.fst (α := String) (β := String)))]
  simp

theorem fmtF0_100 : fmtF0 (100 : Rat) = "100" := by decide

theorem string_default (now : Int) :
    (NewSearchParameters now).string =
      "type=action&after=" ++ rfc3339 (now - defaultSearchPeriod) ++ "&before="
        ++ rfc3339 (now + defaultSearchPeriod) ++ "&limit=100" := by
  simp only [SearchParameters.string, NewSearchParameters]
  simp [fmtF0_100, String.append_assoc]

/-! ## Parameter-slot assembly -/

theorem steps_param_facts (l : List Step) (hg : goodToks l) :
    paramsOf (whereToks (runSteps initState l).clauses) = List.range' 1 (runSteps initState l).valctr ∧
    (runSteps initState l).vals = ((runSteps initState l).clauses.map (fun c => c.vals)).flatten ∧
    (runSteps initState l).vals.length = (runSteps initState l).valctr ∧
    basesFromB 0 (runSteps initState l).clauses = true ∧
    ∀ c ∈ (runSteps initState l).clauses, paramsOf c.toks = List.range' (c.base + 1) c.vals.length := by
  have hc := runSteps_clauses l initState
  have hv := runSteps_vals l initState
  have hn := runSteps_valctr l initState
  simp only [initState, List.nil_append] at hc hv hn ⊢
  refine ⟨?_, ?_, ?_, ?_, ?_⟩
  · rw [hc, hn]
    simpa using whereToks_params 0 l hg
  · rw [hc, hv]
    exact (buildClauses_vals 0 l).symm
  · rw [hv, hn, valsJoin_length]
    omega
  · rw [hc]
    exact buildClauses_bases 0 l
  · rw [hc]
    exact buildClauses_forall _ 0 l (fun st hst _ m => hg st hst m)

theorem paramsOf_query (head : String) (cls : List Clause) (tailLit : String) (v : Nat)
    (hw : paramsOf (whereToks cls) = List.range' 1 v) :
    paramsOf ((Tok.lit head :: whereToks cls)
      ++ [Tok.lit tailLit, Tok.param (v + 1), Tok.lit " OFFSET ", Tok.param (v + 2), Tok.lit ";"])
      = List.range' 1 (v + 2) := by
  rw [List.cons_append, paramsOf, paramsOf_append, hw]
  simp only [paramsOf]
  have e1 : [v + 1, v + 2] = List.range' (1 + v) 2 := by
    simp [List.range']
    omega
  rw [e1, range'_glue]

/-! ## Claim theorems -/

/-- C1: for every parameter set, each flag-driven search joins exactly the
set of tables given by the transitive closure of the §4.3 join-inference
rules over the filters that are set, each required join appearing exactly
once in the stated order (the `xJoinsSpec` functions transcribe those
rules), while `SearchCommands` always joins actions, signatures,
investigators and agents regardless of the filters. -/
theorem claim_C1_join_inference (p : SearchParameters) (now : Int) (doFA : Bool) (q : BuiltQuery) :
    (searchActionsQuery p now = Except.ok q → q.joins = actionsJoinsSpec p) ∧
    (searchAgentsQuery p now = Except.ok q → q.joins = agentsJoinsSpec p) ∧
    (searchInvestigatorsQuery p now = Except.ok q → q.joins = investigatorsJoinsSpec p) ∧
    (searchCommandsQuery p doFA now = Except.ok q →
      strContains "INNER JOIN actions ON ( commands.actionid = actions.id)" q.text = true ∧
      strContains "INNER JOIN signatures ON ( actions.id = signatures.actionid )" q.text = true ∧
      strContains "INNER JOIN investigators ON ( signatures.investigatorid = investigators.id )" q.text = true ∧
      strContains "INNER JOIN agents ON ( commands.agentid = agents.id )" q.text = true) := by
  refine ⟨?_, ?_, ?_, ?_⟩
  · intro h
    obtain ⟨ids, hids, rfl⟩ := searchActionsQuery_ok_inv p now q h
    simpa [mkActionsQuery] using actions_joins_eq p ids now
  · intro h
    obtain ⟨ids, hids, rfl⟩ := searchAgentsQuery_ok_inv p now q h
    simpa [mkAgentsQuery] using agents_joins_eq p ids now
  · intro h
    obtain ⟨ids, hids, rfl⟩ := searchInvestigatorsQuery_ok_inv p now q h
    simpa [mkInvestigatorsQuery] using investigators_joins_eq p ids now
  · intro h
    obtain ⟨ids, hids, rfl⟩ := searchCommandsQuery_ok_inv p doFA now q h
    refine ⟨?_, ?_, ?_, ?_⟩ <;>
      · simp only [BuiltQuery.text, mkCommandsQuery, List.cons_append, renderToks]
        exact strContains_append_left _ _ _ (by decide)

/-- C1 witness: with only ActionName set on the agents search, the call
succeeds and the joins are exactly the spec closure for that filter set. -/
theorem claim_C1_join_inference_witness :
    searchAgentsQuery { NewSearchParameters 0 with ActionName := "phish%" } 0
        = Except.ok (mkAgentsQuery { NewSearchParameters 0 with ActionName := "phish%" }
            ⟨0, MAXFLOAT64, 0, MAXFLOAT64, 0, MAXFLOAT64, 0, MAXFLOAT64⟩ 0) ∧
    (mkAgentsQuery { NewSearchParameters 0 with ActionName := "phish%" }
        ⟨0, MAXFLOAT64, 0, MAXFLOAT64, 0, MAXFLOAT64, 0, MAXFLOAT64⟩ 0).joins
      = agentsJoinsSpec { NewSearchParameters 0 with ActionName := "phish%" } := by
  have h : searchAgentsQuery { NewSearchParameters 0 with ActionName := "phish%" } 0
      = Except.ok (mkAgentsQuery { NewSearchParameters 0 with ActionName := "phish%" }
          ⟨0, MAXFLOAT64, 0, MAXFLOAT64, 0, MAXFLOAT64, 0, MAXFLOAT64⟩ 0) := rfl
  exact ⟨h, (claim_C1_join_inference { NewSearchParameters 0 with ActionName := "phish%" } 0 false _).2.1 h⟩

/-- C2: the range resolver maps each identifier filter to a closed range
(sentinel to [0, 2^53-1], parsed value v to [v, v]), succeeds exactly when
every non-sentinel identifier filter parses, and on failure every search
operation returns that same parse failure with no query built. -/
theorem claim_C2_range_resolver (p : SearchParameters) (now : Int) (doFA : Bool) :
    ((makeIDsFromParams p).isOk = true ↔
      ((p.ActionID = "∞" ∨ (parseGoFloat p.ActionID).isSome = true) ∧
       (p.CommandID = "∞" ∨ (parseGoFloat p.CommandID).isSome = true) ∧
       (p.AgentID = "∞" ∨ (parseGoFloat p.AgentID).isSome = true) ∧
       (p.InvestigatorID = "∞" ∨ (parseGoFloat p.InvestigatorID).isSome = true))) ∧
    (∀ ids, makeIDsFromParams p = Except.ok ids →
      ((p.ActionID = "∞" ∧ ids.minActionID = 0 ∧ ids.maxActionID = MAXFLOAT64) ∨
        (p.ActionID ≠ "∞" ∧ parseGoFloat p.ActionID = some ids.minActionID ∧ ids.maxActionID = ids.minActionID)) ∧
      ((p.CommandID = "∞" ∧ ids.minCommandID = 0 ∧ ids.maxCommandID = MAXFLOAT64) ∨
        (p.CommandID ≠ "∞" ∧ parseGoFloat p.CommandID = some ids.minCommandID ∧ ids.maxCommandID = ids.minCommandID)) ∧
      ((p.AgentID = "∞" ∧ ids.minAgentID = 0 ∧ ids.maxAgentID = MAXFLOAT64) ∨
        (p.AgentID ≠ "∞" ∧ parseGoFloat p.AgentID = some ids.minAgentID ∧ ids.maxAgentID = ids.minAgentID)) ∧
      ((p.InvestigatorID = "∞" ∧ ids.minInvID = 0 ∧ ids.maxInvID = MAXFLOAT64) ∨
        (p.InvestigatorID ≠ "∞" ∧ parseGoFloat p.InvestigatorID = some ids.minInvID ∧ ids.maxInvID = ids.minInvID))) ∧
    (∀ e, makeIDsFromParams p = Except.error e →
      searchCommandsQuery p doFA now = Except.error e ∧
      searchActionsQuery p now = Except.error e ∧
      searchAgentsQuery p now = Except.error e ∧
      searchInvestigatorsQuery p now = Except.error e) :=
  ⟨makeIDs_isOk_iff p,
   fun ids h => makeIDs_ok_ranges p ids h,
   fun e h => ⟨searchCommandsQuery_error p doFA now e h, searchActionsQuery_error p now e h,
     searchAgentsQuery_error p now e h, searchInvestigatorsQuery_error p now e h⟩⟩

/-- C2 witness: a non-numeric AgentID makes the resolver fail and every
search return that same failure with no query built. -/
theorem claim_C2_range_resolver_witness :
    makeIDsFromParams { NewSearchParameters 0 with AgentID := "abc" }
        = Except.error (ParseFloatError.syntaxErr "abc") ∧
    searchCommandsQuery { NewSearchParameters 0 with AgentID := "abc" } false 0
        = Except.error (ParseFloatError.syntaxErr "abc") ∧
    searchActionsQuery { NewSearchParameters 0 with AgentID := "abc" } 0
        = Except.error (ParseFloatError.syntaxErr "abc") ∧
    searchAgentsQuery { NewSearchParameters 0 with AgentID := "abc" } 0
        = Except.error (ParseFloatError.syntaxErr "abc") ∧
    searchInvestigatorsQuery { NewSearchParameters 0 with AgentID := "abc" } 0
        = Except.error (ParseFloatError.syntaxErr "abc") := by
  have h : makeIDsFromParams { NewSearchParameters 0 with AgentID := "abc" }
      = Except.error (ParseFloatError.syntaxErr "abc") := by rfl
  have h2 := (claim_C2_range_resolver { NewSearchParameters 0 with AgentID := "abc" } 0 false).2.2 _ h
  exact ⟨h, h2.1, h2.2.1, h2.2.2.1, h2.2.2.2⟩

/-- C3: String() always emits type, after, before and limit; a
default-constructed SearchParameters serializes to exactly
type, after, before, limit with no other key; the serialization is the
concatenation of its key segments, and the keys present are exactly the
non-default fields in the fixed order. -/
theorem claim_C3_string_serialization (now : Int) (p : SearchParameters) :
    ((NewSearchParameters now).string =
      "type=action&after=" ++ rfc3339 (now - defaultSearchPeriod) ++ "&before="
        ++ rfc3339 (now + defaultSearchPeriod) ++ "&limit=100") ∧
    (p.string = segJoin (stringSegments p)) ∧
    ((stringSegments p).map Prod.fst =
      ["type", "after", "before"]
      ++ (if p.AgentName ≠ "%" then ["agentname"] else [])
      ++ (if p.AgentID ≠ "∞" then ["agentid"] else [])
      ++ (if p.ActionName ≠ "%" then ["actionname"] else [])
      ++ (if p.ActionID ≠ "∞" then ["actionid"] else [])
      ++ (if p.CommandID ≠ "∞" then ["commandid"] else [])
      ++ (if p.InvestigatorID ≠ "∞" then ["investigatorid"] else [])
      ++ (if p.InvestigatorName ≠ "%" then ["investigatorname"] else [])
      ++ (if p.ThreatFamily ≠ "%" then ["threatfamily"] else [])
      ++ (if p.Status ≠ "%" then ["status"] else [])
      ++ ["limit"]
      ++ (if p.Offset ≠ 0 then ["offset"] else [])) :=
  ⟨string_default now, string_eq_segments p, segments_keys p⟩

/-- C4 counterexample: with every filter at its sentinel and the
found-anything restriction active, SearchCommands emits a WHERE clause whose
text contains a range predicate over actions.id even though ActionID is the
sentinel, falsifying the claim that a sentinel field never yields a
predicate over its column. -/
theorem claim_C4_counterexample :
    (NewSearchParameters 0).ActionID = "∞" ∧
    (clausesOfE (searchCommandsQuery (NewSearchParameters 0) true 0)).any
      (fun c => strContains "actions.id >= " (renderToks c.toks)) = true := by
  decide

/-- C4 amended: if a filter field equals its sentinel then no WHERE clause
for that field is emitted and no parameter is bound from it, in all four
searches; the one exception the counterexample forces is the found-anything
clause of SearchCommands, which always carries an action-id range predicate
binding the resolved action range (0 and 2^53-1 when ActionID is the
sentinel). -/
theorem claim_C4_amended_sentinels (p : SearchParameters) (now : Int) (doFA : Bool) (q : BuiltQuery) :
    (searchCommandsQuery p doFA now = Except.ok q → ∀ c ∈ q.clauses, clauseJustified p doFA c.field) ∧
    (searchActionsQuery p now = Except.ok q → ∀ c ∈ q.clauses, clauseJustified p doFA c.field) ∧
    (searchAgentsQuery p now = Except.ok q → ∀ c ∈ q.clauses, clauseJustified p doFA c.field) ∧
    (searchInvestigatorsQuery p now = Except.ok q → ∀ c ∈ q.clauses, clauseJustified p doFA c.field) ∧
    (p.ActionID = "∞" → searchCommandsQuery p true now = Except.ok q →
      q.clauses.any (fun c => c.field == Field.foundAnything && c.toks == faTemplate c.base &&
        c.vals == [Val.str statusSuccess, Val.num 0, Val.num MAXFLOAT64,
          Val.bool p.FoundAnything]) = true) := by
  refine ⟨?_, ?_, ?_, ?_, ?_⟩
  · intro h c hc
    obtain ⟨ids, hids, rfl⟩ := searchCommandsQuery_ok_inv p doFA now q h
    exact commands_clauses_justified p ids now doFA c (by simpa [mkCommandsQuery] using hc)
  · intro h c hc
    obtain ⟨ids, hids, rfl⟩ := searchActionsQuery_ok_inv p now q h
    exact actions_clauses_justified p ids now doFA c (by simpa [mkActionsQuery] using hc)
  · intro h c hc
    obtain ⟨ids, hids, rfl⟩ := searchAgentsQuery_ok_inv p now q h
    exact agents_clauses_justified p ids now doFA c (by simpa [mkAgentsQuery] using hc)
  · intro h c hc
    obtain ⟨ids, hids, rfl⟩ := searchInvestigatorsQuery_ok_inv p now q h
    exact investigators_clauses_justified p ids now doFA c (by simpa [mkInvestigatorsQuery] using hc)
  · intro hA h
    obtain ⟨ids, hids, rfl⟩ := searchCommandsQuery_ok_inv p true now q h
    rcases (makeIDs_ok_ranges p ids hids).1 with ⟨_, h0, hM⟩ | ⟨hne, _, _⟩
    · obtain ⟨m, hm⟩ := commands_fa_clause p ids now
      rw [h0, hM] at hm
      rw [List.any_eq_true]
      exact ⟨_, by simpa [mkCommandsQuery] using hm, by simp⟩
    · exact absurd hA hne

/-- C4 amended witness: at the default parameters with the restriction
active, ActionID is the sentinel yet the found-anything clause is present
with the default action range bound. -/
theorem claim_C4_amended_sentinels_witness :
    (NewSearchParameters 0).ActionID = "∞" ∧
    (mkCommandsQuery (NewSearchParameters 0)
        ⟨0, MAXFLOAT64, 0, MAXFLOAT64, 0, MAXFLOAT64, 0, MAXFLOAT64⟩ 0 true).clauses.any
      (fun c => c.field == Field.foundAnything && c.toks == faTemplate c.base &&
        c.vals == [Val.str statusSuccess, Val.num 0, Val.num MAXFLOAT64,
          Val.bool (NewSearchParameters 0).FoundAnything]) = true := by
  have h : searchCommandsQuery (NewSearchParameters 0) true 0
      = Except.ok (mkCommandsQuery (NewSearchParameters 0)
          ⟨0, MAXFLOAT64, 0, MAXFLOAT64, 0, MAXFLOAT64, 0, MAXFLOAT64⟩ 0 true) := rfl
  exact ⟨rfl, (claim_C4_amended_sentinels (NewSearchParameters 0) 0 true _).2.2.2.2 rfl h⟩

/-- C5: in all four searches the time-window clauses obey the one-hour
tolerance around the default ±10-year boundary: within one hour no clause is
emitted, and an emitted clause implies the bound differs from the boundary
by more than one hour. -/
theorem claim_C5_time_window (p : SearchParameters) (now : Int) (doFA : Bool) (q : BuiltQuery) :
    (searchCommandsQuery p doFA now = Except.ok q → timeWindowProp p now q) ∧
    (searchActionsQuery p now = Except.ok q → timeWindowProp p now q) ∧
    (searchAgentsQuery p now = Except.ok q → timeWindowProp p now q) ∧
    (searchInvestigatorsQuery p now = Except.ok q → timeWindowProp p now q) := by
  refine ⟨?_, ?_, ?_, ?_⟩
  · intro h
    obtain ⟨ids, hids, rfl⟩ := searchCommandsQuery_ok_inv p doFA now q h
    have hb := commands_mem_before p ids now doFA
    have ha := commands_mem_after p ids now doFA
    simp only [timeWindowProp, mkCommandsQuery]
    refine ⟨?_, ?_, ?_, ?_⟩
    · intro habs
      rw [hb]
      rw [abs_le] at habs
      omega
    · intro hmem
      rw [hb] at hmem
      rw [lt_abs]
      omega
    · intro habs
      rw [ha]
      rw [abs_le] at habs
      omega
    · intro hmem
      rw [ha] at hmem
      rw [lt_abs]
      omega
  · intro h
    obtain ⟨ids, hids, rfl⟩ := searchActionsQuery_ok_inv p now q h
    have hb := actions_mem_before p ids now
    have ha := actions_mem_after p ids now
    simp only [timeWindowProp, mkActionsQuery]
    refine ⟨?_, ?_, ?_, ?_⟩
    · intro habs
      rw [hb]
      rw [abs_le] at habs
      omega
    · intro hmem
      rw [hb] at hmem
      rw [lt_abs]
      omega
    · intro habs
      rw [ha]
      rw [abs_le] at habs
      omega
    · intro hmem
      rw [ha] at hmem
      rw [lt_abs]
      omega
  · intro h
    obtain ⟨ids, hids, rfl⟩ := searchAgentsQuery_ok_inv p now q h
    have hb := agents_mem_before p ids now
    have ha := agents_mem_after p ids now
    simp only [timeWindowProp, mkAgentsQuery]
    refine ⟨?_, ?_, ?_, ?_⟩
    · intro habs
      rw [hb]
      rw [abs_le] at habs
      omega
    · intro hmem
      rw [hb] at hmem
      rw [lt_abs]
      omega
    · intro habs
      rw [ha]
      rw [abs_le] at habs
      omega
    · intro hmem
      rw [ha] at hmem
      rw [lt_abs]
      omega
  · intro h
    obtain ⟨ids, hids, rfl⟩ := searchInvestigatorsQuery_ok_inv p now q h
    have hb := investigators_mem_before p ids now
    have ha := investigators_mem_after p ids now
    simp only [timeWindowProp, mkInvestigatorsQuery]
    refine ⟨?_, ?_, ?_, ?_⟩
    · intro habs
      rw [hb]
      rw [abs_le] at habs
      omega
    · intro hmem
      rw [hb] at hmem
      rw [lt_abs]
      omega
    · intro habs
      rw [ha]
      rw [abs_le] at habs
      omega
    · intro hmem
      rw [ha] at hmem
      rw [lt_abs]
      omega

/-- C5 witness: at the default parameters (Before exactly at the +10y
boundary) the commands search emits no before clause. -/
theorem claim_C5_time_window_witness :
    Field.before ∉ (clausesOfE (searchCommandsQuery (NewSearchParameters 0) false 0)).map
      (fun c => c.field) := by
  have h : searchCommandsQuery (NewSearchParameters 0) false 0
      = Except.ok (mkCommandsQuery (NewSearchParameters 0)
          ⟨0, MAXFLOAT64, 0, MAXFLOAT64, 0, MAXFLOAT64, 0, MAXFLOAT64⟩ 0 false) := rfl
  have h2 := ((claim_C5_time_window (NewSearchParameters 0) 0 false _).1 h).1 (by decide)
  simpa [clausesOfE, h] using h2

/-- C6: with the found-anything restriction active and ActionID at its
sentinel, SearchCommands appends the found-anything clause with its source
template, binding exactly the success status, the default action range 0 and
2^53-1, and the requested boolean. -/
theorem claim_C6_found_anything (p : SearchParameters) (now : Int) (q : BuiltQuery)
    (hA : p.ActionID = "∞") (h : searchCommandsQuery p true now = Except.ok q) :
    q.clauses.any (fun c =>
      c.field == Field.foundAnything && c.toks == faTemplate c.base &&
      c.vals == [Val.str statusSuccess, Val.num 0, Val.num MAXFLOAT64,
        Val.bool p.FoundAnything]) = true := by
  obtain ⟨ids, hids, rfl⟩ := searchCommandsQuery_ok_inv p true now q h
  rcases (makeIDs_ok_ranges p ids hids).1 with ⟨_, h0, hM⟩ | ⟨hne, _, _⟩
  · obtain ⟨m, hm⟩ := commands_fa_clause p ids now
    rw [h0, hM] at hm
    rw [List.any_eq_true]
    exact ⟨_, by simpa [mkCommandsQuery] using hm, by simp⟩
  · exact absurd hA hne

/-- C6 witness: the default parameters with the restriction active produce
the found-anything clause binding success, 0, 2^53-1 and false. -/
theorem claim_C6_found_anything_witness :
    (mkCommandsQuery (NewSearchParameters 0)
        ⟨0, MAXFLOAT64, 0, MAXFLOAT64, 0, MAXFLOAT64, 0, MAXFLOAT64⟩ 0 true).clauses.any
      (fun c => c.field == Field.foundAnything && c.toks == faTemplate c.base &&
        c.vals == [Val.str statusSuccess, Val.num 0, Val.num MAXFLOAT64,
          Val.bool (NewSearchParameters 0).FoundAnything]) = true := by
  have h : searchCommandsQuery (NewSearchParameters 0) true 0
      = Except.ok (mkCommandsQuery (NewSearchParameters 0)
          ⟨0, MAXFLOAT64, 0, MAXFLOAT64, 0, MAXFLOAT64, 0, MAXFLOAT64⟩ 0 true) := rfl
  exact claim_C6_found_anything (NewSearchParameters 0) 0 _ rfl h

/-- C7: with a status filter set, the actions search emits a status clause
that references the singular alias action.status, while every other clause
references a plural alias and no declared relation is named action — so the
query references an undeclared alias. -/
theorem claim_C7_actions_status_alias (p : SearchParameters) (now : Int) (q : BuiltQuery)
    (hs : p.Status ≠ "%") (h : searchActionsQuery p now = Except.ok q) :
    (q.clauses.any (fun c => c.field == Field.status &&
        c.toks == [Tok.lit "action.status ILIKE ", Tok.param (c.base + 1)]) = true) ∧
    (∀ c ∈ q.clauses, c.field = Field.status →
        c.toks = [Tok.lit "action.status ILIKE ", Tok.param (c.base + 1)] ∧
        strStarts "action." (headLit c.toks) = true) ∧
    (∀ c ∈ q.clauses, c.field ≠ Field.status →
        strStarts "action." (headLit c.toks) = false) ∧
    (∀ j ∈ q.joins, "action" ∉ j.tables) ∧ "action" ≠ "actions" := by
  obtain ⟨ids, hids, rfl⟩ := searchActionsQuery_ok_inv p now q h
  refine ⟨?_, ?_, ?_, ?_, by decide⟩
  · obtain ⟨m, hm⟩ := actions_status_clause p ids now hs
    rw [List.any_eq_true]
    exact ⟨_, by simpa [mkActionsQuery] using hm, by simp⟩
  · intro c hc hf
    have h1 := actions_status_clause_shape p ids now c (by simpa [mkActionsQuery] using hc) hf
    refine ⟨h1, ?_⟩
    rw [h1]
    rfl
  · intro c hc hf
    exact actions_other_clauses_not_action p ids now c (by simpa [mkActionsQuery] using hc) hf
  · intro j _
    exact joinClause_tables_not_action j

/-- C7 witness: Status set to done on the actions search yields the
action.status clause. -/
theorem claim_C7_actions_status_alias_witness :
    (mkActionsQuery { NewSearchParameters 0 with Status := "done" }
        ⟨0, MAXFLOAT64, 0, MAXFLOAT64, 0, MAXFLOAT64, 0, MAXFLOAT64⟩ 0).clauses.any
      (fun c => c.field == Field.status &&
        c.toks == [Tok.lit "action.status ILIKE ", Tok.param (c.base + 1)]) = true := by
  have h : searchActionsQuery { NewSearchParameters 0 with Status := "done" } 0
      = Except.ok (mkActionsQuery { NewSearchParameters 0 with Status := "done" }
          ⟨0, MAXFLOAT64, 0, MAXFLOAT64, 0, MAXFLOAT64, 0, MAXFLOAT64⟩ 0) := rfl
  exact (claim_C7_actions_status_alias { NewSearchParameters 0 with Status := "done" } 0 _
    (by decide) h).1

/-- C8: in all four builders the positional placeholders are exactly $1..$N
assigned consecutively in predicate order, the bound-value list has length
N, each clause binds exactly its own slots, and the final two slots are
Limit and Offset. -/
theorem claim_C8_positional_params (p : SearchParameters) (now : Int) (doFA : Bool) (q : BuiltQuery) :
    (searchCommandsQuery p doFA now = Except.ok q → paramFacts p q) ∧
    (searchActionsQuery p now = Except.ok q → paramFacts p q) ∧
    (searchAgentsQuery p now = Except.ok q → paramFacts p q) ∧
    (searchInvestigatorsQuery p now = Except.ok q → paramFacts p q) := by
  refine ⟨?_, ?_, ?_, ?_⟩
  · intro h
    obtain ⟨ids, hids, rfl⟩ := searchCommandsQuery_ok_inv p doFA now q h
    obtain ⟨h1, h2, h3, h4, h5⟩ :=
      steps_param_facts (commandsSteps p ids now doFA) (commandsSteps_good p ids now doFA)
    simp only [paramFacts, mkCommandsQuery]
    refine ⟨paramsOf_query _ _ _ _ h1, by rw [h2], ?_, h4, h5⟩
    simp [h3]
  · intro h
    obtain ⟨ids, hids, rfl⟩ := searchActionsQuery_ok_inv p now q h
    obtain ⟨h1, h2, h3, h4, h5⟩ :=
      steps_param_facts (actionsSteps p ids now) (actionsSteps_good p ids now)
    simp only [paramFacts, mkActionsQuery]
    refine ⟨paramsOf_query _ _ _ _ h1, by rw [h2], ?_, h4, h5⟩
    simp [h3]
  · intro h
    obtain ⟨ids, hids, rfl⟩ := searchAgentsQuery_ok_inv p now q h
    obtain ⟨h1, h2, h3, h4, h5⟩ :=
      steps_param_facts (agentsSteps p ids now) (agentsSteps_good p ids now)
    simp only [paramFacts, mkAgentsQuery]
    refine ⟨paramsOf_query _ _ _ _ h1, by rw [h2], ?_, h4, h5⟩
    simp [h3]
  · intro h
    obtain ⟨ids, hids, rfl⟩ := searchInvestigatorsQuery_ok_inv p now q h
    obtain ⟨h1, h2, h3, h4, h5⟩ :=
      steps_param_facts (investigatorsSteps p ids now) (investigatorsSteps_good p ids now)
    simp only [paramFacts, mkInvestigatorsQuery]
    refine ⟨paramsOf_query _ _ _ _ h1, by rw [h2], ?_, h4, h5⟩
    simp [h3]

/-- C8 witness: at the default parameters the commands query uses exactly
the placeholders $1 and $2 (limit, offset) and binds exactly two values. -/
theorem claim_C8_positional_params_witness :
    paramsOf (mkCommandsQuery (NewSearchParameters 0)
        ⟨0, MAXFLOAT64, 0, MAXFLOAT64, 0, MAXFLOAT64, 0, MAXFLOAT64⟩ 0 false).toks = [1, 2] ∧
    (mkCommandsQuery (NewSearchParameters 0)
        ⟨0, MAXFLOAT64, 0, MAXFLOAT64, 0, MAXFLOAT64, 0, MAXFLOAT64⟩ 0 false).vals.length = 2 := by
  have h : searchCommandsQuery (NewSearchParameters 0) false 0
      = Except.ok (mkCommandsQuery (NewSearchParameters 0)
          ⟨0, MAXFLOAT64, 0, MAXFLOAT64, 0, MAXFLOAT64, 0, MAXFLOAT64⟩ 0 false) := rfl
  obtain ⟨h1, h2, h3, h4, h5⟩ := (claim_C8_positional_params (NewSearchParameters 0) 0 false _).1 h
  constructor
  · rw [h1]
    decide
  · rw [h3]
    decide

/-- C9: the range resolver enforces no bounds on parsed identifiers: any
non-sentinel string the parser accepts, including negative, fractional and
huge values such as 1e300, collapses to the exact point range with no error;
2^53-1 is only the sentinel default, never a checked ceiling. -/
theorem claim_C9_unbounded_ids (s : String) (v : Rat) (now : Int)
    (hs : s ≠ "∞") (hp : parseGoFloat s = some v) :
    makeIDsFromParams { NewSearchParameters now with AgentID := s } =
      Except.ok ⟨0, MAXFLOAT64, 0, MAXFLOAT64, v, v, 0, MAXFLOAT64⟩ ∧
    parseGoFloat "1e300" = some (((10 : Nat) ^ 300 : Nat) : Rat) ∧
    MAXFLOAT64 < (((10 : Nat) ^ 300 : Nat) : Rat) ∧
    parseGoFloat "-5" = some (mkRat (-5) 1) ∧
    parseGoFloat "2.5" = some (mkRat 5 2) := by
  refine ⟨?_, by decide, by decide, by decide, by decide⟩
  have e1 : resolveID ({ NewSearchParameters now with AgentID := s } : SearchParameters).ActionID
      = Except.ok (0, MAXFLOAT64) := resolveID_sentinel
  have e2 : resolveID ({ NewSearchParameters now with AgentID := s } : SearchParameters).CommandID
      = Except.ok (0, MAXFLOAT64) := resolveID_sentinel
  have e3 : resolveID ({ NewSearchParameters now with AgentID := s } : SearchParameters).AgentID
      = Except.ok (v, v) := resolveID_not_sentinel s v hs hp
  have e4 : resolveID ({ NewSearchParameters now with AgentID := s } : SearchParameters).InvestigatorID
      = Except.ok (0, MAXFLOAT64) := resolveID_sentinel
  rw [makeIDsFromParams, e1, e2, e3, e4]

/-- C9 witness: the value 1e300, far above 2^53-1, is accepted and produces
the point range. -/
theorem claim_C9_unbounded_ids_witness :
    makeIDsFromParams { NewSearchParameters 0 with AgentID := "1e300" } =
      Except.ok ⟨0, MAXFLOAT64, 0, MAXFLOAT64, (((10 : Nat) ^ 300 : Nat) : Rat),
        (((10 : Nat) ^ 300 : Nat) : Rat), 0, MAXFLOAT64⟩ :=
  (claim_C9_unbounded_ids "1e300" (((10 : Nat) ^ 300 : Nat) : Rat) 0
    (by decide) (by decide)).1

/-- C10: Report and Target are read by no operation: changing them changes
neither the serialization, nor the resolved ranges, nor any of the four
built queries (text and bound values alike). -/
theorem claim_C10_report_target_unread (p : SearchParameters) (r t : String) (now : Int) (doFA : Bool) :
    ({ p with Report := r, Target := t } : SearchParameters).string = p.string ∧
    makeIDsFromParams { p with Report := r, Target := t } = makeIDsFromParams p ∧
    searchCommandsQuery { p with Report := r, Target := t } doFA now = searchCommandsQuery p doFA now ∧
    searchActionsQuery { p with Report := r, Target := t } now = searchActionsQuery p now ∧
    searchAgentsQuery { p with Report := r, Target := t } now = searchAgentsQuery p now ∧
    searchInvestigatorsQuery { p with Report := r, Target := t } now = searchInvestigatorsQuery p now :=
  ⟨rfl, rfl, rfl, rfl, rfl, rfl⟩

end Mig
